import Mathlib

/-!
Verification of the BugBountyOps engine (`engine/api/main.py`): a shallow
embedding of its in-memory data model (programs, findings, scans, the
GitHub-Actions-style activity/run/log/artifact ledger), the registry
operations, and the staged scan-simulation coroutine.

Modelling conventions:
* Python dicts keyed by string identifiers become association lists
  (`List (String × β)`) with first-match lookup and overwrite-or-append set.
* `uuid.uuid4()` is modelled as an injective fresh-identifier source drawn
  from a per-state counter; only the freshness of generated identifiers is
  observable in the code.
* `datetime.now().isoformat()` timestamps are monotonically increasing
  strings within a process; they are modelled as a monotone `Nat` clock
  (order, presence and differences are all that the code observes).
* The simulation coroutine's only suspension points are its per-stage
  `await` calls.  An external `stop_scan` request can flip the scan's status
  to `"stopped"` during any suspension; `stopBefore = some i` (`i ≤ 4`)
  means the flip is observable at stage `i`'s boundary check, `some 5`
  means it lands during the final stage's sleep (observable only at the
  post-loop check), and `none` means no stop request arrives.
* `sio.emit` is a fire-and-forget publish; it is modelled as appending the
  event to an event trace.
* Machine integers: Python integers are unbounded, so `Nat`/`Int` are used
  directly; `//` is floor division, modelled by `Int.fdiv`.
-/

/-- Entry of the static `PROGRAMS` catalog.  Only the fields consumed by the
modelled subsystem (`id` for lookup, `name` for titles and templated
strings) are carried; the remaining static catalog fields (platform,
payout, rps, tags, ...) are never read by the activity/scan core. -/
structure Program where
  id : String
  name : String
deriving Repr, DecidableEq

/-- A vulnerability finding record, as stored in the `FINDINGS` list. -/
structure Finding where
  id : String
  programId : String
  type : String
  severity : ℚ
  status : String
  payoutEst : Nat
  timestamp : Nat
  evidence : List String
  activityId : Option String
deriving Repr, DecidableEq

/-- A scan status record, as stored in the `SCAN_STATUSES` dict. -/
structure Scan where
  id : String
  programId : String
  status : String
  progress : Int
  assetsFound : Int
  vulnerabilitiesFound : Int
  startTime : Nat
  activityId : Option String
deriving Repr, DecidableEq

/-- An activity record, as stored in the `ACTIVITIES` list
(`create_activity`). -/
structure Activity where
  id : String
  type : String
  title : String
  programId : Option String
  triggeredBy : String
  status : String
  startTime : Nat
  endTime : Option Nat
  duration : Option Int
  conclusion : Option String
  artifacts : List String
  runCount : Nat
deriving Repr, DecidableEq

/-- A log entry, as appended by `log_activity`. -/
structure LogEntry where
  timestamp : Nat
  level : String
  message : String
  runId : Option String
deriving Repr, DecidableEq

/-- A run record, as created by `create_activity_run`.  The `logs` and
`artifacts` fields are initialized empty and never written by the code. -/
structure Run where
  id : String
  activityId : String
  jobName : String
  stepName : Option String
  status : String
  startTime : Nat
  endTime : Option Nat
  duration : Option Int
  conclusion : Option String
  logs : List LogEntry
  artifacts : List String
deriving Repr, DecidableEq

/-- An artifact record, as stored in the `ARTIFACTS` dict by
`add_artifact`. -/
structure Artifact where
  id : String
  name : String
  type : String
  content : String
  size : Nat
  createdAt : Nat
  runId : Option String
deriving Repr, DecidableEq

/-- One `sio.emit(eventName, payload)` call, recorded in an event trace. -/
inductive Event where
  | scan_update (scan : Scan)
  | new_finding (finding : Finding)
  | finding_approved (finding : Finding)
  | activity_updated (activity : Activity)
deriving Repr, DecidableEq

/-- The whole in-memory server state: the module-level registries of
`engine/api/main.py`, plus the event trace, the fresh-identifier counter
and the clock. -/
structure ServerState where
  programs : List Program
  findings : List Finding
  scans : List (String × Scan)
  activities : List Activity
  activity_runs : List (String × List Run)
  activity_logs : List (String × List LogEntry)
  artifacts : List (String × Artifact)
  events : List Event
  counter : Nat
  clock : Nat
deriving Repr, DecidableEq

/-- First-match lookup in an association list (Python dict read). -/
def dictGet? (k : String) (m : List (String × β)) : Option β :=
  (m.find? (fun p => p.1 = k)).map (fun p => p.2)

/-- Key-presence test in an association list (Python `k in d`). -/
def dictMem (k : String) (m : List (String × β)) : Bool :=
  m.any (fun p => p.1 = k)

/-- Overwrite-or-append set in an association list (Python `d[k] = v`). -/
def dictSet (k : String) (v : β) (m : List (String × β)) : List (String × β) :=
  if dictMem k m then m.map (fun p => if p.1 = k then (k, v) else p)
  else m ++ [(k, v)]

/-- Update the first element satisfying `p` (a Python `for ... if ...:
mutate; break` loop over a list). -/
def updateFirst (p : α → Bool) (f : α → α) : List α → List α
  | [] => []
  | a :: as => if p a then f a :: as else a :: updateFirst p f as

/-- Fresh identifier source standing in for `uuid.uuid4()`: injective in the
counter, so distinct draws are distinct strings, which is the only property
of uuids the code relies on. -/
def freshId (n : Nat) : String :=
  String.mk (List.replicate (n + 1) 'u')

/-- Python truthiness of an optional-string argument (`if conclusion:`):
false for `None` and for the empty string. -/
def pyTruthyStr : Option String → Bool
  | none => false
  | some c => !(c == "")

/-- Record an emitted event (`await sio.emit(...)`). -/
def emit (s : ServerState) (e : Event) : ServerState :=
  { s with events := s.events ++ [e] }

/-- Errors raised to the boundary layer (`HTTPException` 404 / 400). -/
inductive ApiError where
  | notFound (detail : String)
  | invalidState (detail : String)
deriving Repr, DecidableEq

/-- The activity record built by `create_activity` (main.py:385-398):
status `queued`, no end time / duration / conclusion, empty artifact list,
zero run count. -/
def initActivity (activity_type title : String) (program_id : Option String)
    (triggered_by : String) (activity_id : String) (now : Nat) : Activity :=
  { id := activity_id, type := activity_type, title := title,
    programId := program_id, triggeredBy := triggered_by,
    status := "queued", startTime := now,
    endTime := none, duration := none, conclusion := none,
    artifacts := [], runCount := 0 }

/-- `create_activity` (main.py:382-402): allocate an id, insert a `queued`
activity with empty artifact list and zero run count, and initialize its
run and log lists to empty. -/
def create_activity (s : ServerState) (activity_type title : String)
    (program_id : Option String) (triggered_by : String) : String × ServerState :=
  let activity_id := freshId s.counter
  let activity : Activity :=
    initActivity activity_type title program_id triggered_by activity_id s.clock
  (activity_id,
   { s with activities := s.activities ++ [activity],
            activity_runs := dictSet activity_id [] s.activity_runs,
            activity_logs := dictSet activity_id [] s.activity_logs,
            counter := s.counter + 1, clock := s.clock + 1 })

/-- `create_activity_run` (main.py:404-424): append a `queued` run to the
activity's run list, creating the list if absent. -/
def create_activity_run (s : ServerState) (activity_id job_name : String)
    (step_name : Option String) : String × ServerState :=
  let run_id := freshId s.counter
  let run : Run :=
    { id := run_id, activityId := activity_id, jobName := job_name,
      stepName := step_name, status := "queued", startTime := s.clock,
      endTime := none, duration := none, conclusion := none,
      logs := [], artifacts := [] }
  let prev := (dictGet? activity_id s.activity_runs).getD []
  (run_id,
   { s with activity_runs := dictSet activity_id (prev ++ [run]) s.activity_runs,
            counter := s.counter + 1, clock := s.clock + 1 })

/-- `log_activity` (main.py:426-437): append a timestamped, leveled log
entry to the activity's log list, creating the list if absent. -/
def log_activity (s : ServerState) (activity_id level message : String)
    (run_id : Option String) : ServerState :=
  let entry : LogEntry :=
    { timestamp := s.clock, level := level, message := message, runId := run_id }
  let prev := (dictGet? activity_id s.activity_logs).getD []
  { s with activity_logs := dictSet activity_id (prev ++ [entry]) s.activity_logs,
           clock := s.clock + 1 }

/-- Body of the matched-activity branch of `update_activity_status`
(main.py:441-451): set the status; set the conclusion if one was (truthily)
given; if the new status is terminal, stamp `endTime` and compute
`duration` as the whole-second difference from `startTime`. -/
def applyStatusUpdate (a : Activity) (status : String)
    (conclusion : Option String) (now : Nat) : Activity :=
  let a := { a with status := status }
  let a := if pyTruthyStr conclusion then { a with conclusion := conclusion } else a
  if status = "completed" ∨ status = "failed" ∨ status = "cancelled" then
    { a with endTime := some now, duration := some ((now : Int) - (a.startTime : Int)) }
  else a

/-- `update_activity_status` (main.py:439-451): update the first activity
with the given id (no-op when the id is unknown). -/
def update_activity_status (s : ServerState) (activity_id status : String)
    (conclusion : Option String) : ServerState :=
  let upd := fun a => applyStatusUpdate a status conclusion s.clock
  { s with activities := updateFirst (fun a => a.id == activity_id) upd s.activities,
           clock := s.clock + 1 }

/-- `add_artifact` (main.py:453-472): allocate an id, store the artifact in
the global index, and append the id to the owning activity's artifact list
(silently skipping the linkage when the activity is unknown). -/
def add_artifact (s : ServerState) (activity_id name content artifact_type : String)
    (run_id : Option String) : ServerState :=
  let artifact_id := freshId s.counter
  let artifact : Artifact :=
    { id := artifact_id, name := name, type := artifact_type, content := content,
      size := content.length, createdAt := s.clock, runId := run_id }
  { s with artifacts := dictSet artifact_id artifact s.artifacts,
           activities :=
             updateFirst (fun a => a.id == activity_id)
               (fun a => { a with artifacts := a.artifacts ++ [artifact_id] })
               s.activities,
           counter := s.counter + 1, clock := s.clock + 1 }

/-- Conjunctive exact-match filtering step of `get_activities`
(main.py:487-492); a falsy (absent or empty) query parameter skips its
filter. -/
def filterActivities (activity_type status program_id : Option String)
    (l : List Activity) : List Activity :=
  let l := if pyTruthyStr activity_type
    then l.filter (fun a => a.type == activity_type.getD "") else l
  let l := if pyTruthyStr status
    then l.filter (fun a => a.status == status.getD "") else l
  if pyTruthyStr program_id
    then l.filter (fun a => a.programId == some (program_id.getD "")) else l

/-- Stable insertion of an activity into a list sorted by `startTime`
descending: the new element goes before the first element whose key is not
greater, so earlier-listed elements win ties. -/
def insertStartTimeDesc (a : Activity) : List Activity → List Activity
  | [] => [a]
  | b :: bs =>
    if b.startTime ≤ a.startTime then a :: b :: bs
    else b :: insertStartTimeDesc a bs

/-- Model of `list.sort(key=lambda x: x["startTime"], reverse=True)`
(main.py:495): Python's sort is stable and `reverse=True` keeps equal keys
in insertion order, which this stable descending insertion sort computes. -/
def sortStartTimeDesc : List Activity → List Activity
  | [] => []
  | a :: as => insertStartTimeDesc a (sortStartTimeDesc as)

/-- The filtered, sorted activity list that `get_activities` paginates
(main.py:484-495). -/
def filteredSortedActivities (s : ServerState)
    (activity_type status program_id : Option String) : List Activity :=
  sortStartTimeDesc (filterActivities activity_type status program_id s.activities)

/-- Python list slicing `l[start:stop]` (step 1): both bounds are clamped,
negative bounds count from the end. -/
def pySlice (l : List α) (start stop : Int) : List α :=
  let n : Int := l.length
  let lo := if start < 0 then max 0 (n + start) else min start n
  let hi := if stop < 0 then max 0 (n + stop) else min stop n
  (l.take hi.toNat).drop lo.toNat

/-- Length of an activity's run list, read from the runs index
(`len(ACTIVITY_RUNS.get(id, []))`). -/
def runsLen (s : ServerState) (activity_id : String) : Nat :=
  ((dictGet? activity_id s.activity_runs).getD []).length

/-- Response shape of `get_activities`. -/
structure ActivitiesPage where
  activities : List Activity
  total : Nat
  hasMore : Bool
deriving Repr, DecidableEq

/-- `get_activities` (main.py:475-509): filter conjunctively, sort by
`startTime` descending, paginate with `[offset : offset + limit]`, refresh
`runCount` on each paginated item (a mutation visible in the shared
`ACTIVITIES` records, hence also in the returned state). -/
def get_activities (s : ServerState) (activity_type status program_id : Option String)
    (limit offset : Int) : ActivitiesPage × ServerState :=
  let filtered := filteredSortedActivities s activity_type status program_id
  let total := filtered.length
  let paginated := pySlice filtered offset (offset + limit)
  let ids := paginated.map (fun a => a.id)
  let refresh := fun (a : Activity) =>
    if ids.contains a.id then { a with runCount := runsLen s a.id } else a
  ({ activities := paginated.map (fun a => { a with runCount := runsLen s a.id }),
     total := total,
     hasMore := decide ((offset + limit : Int) < (total : Int)) },
   { s with activities := s.activities.map refresh })

/-- Response shape of `get_activity_details` (`{**activity, runs, logs,
artifacts}`): the spread keeps the activity's stored fields, including its
stored `runCount`. -/
structure ActivityDetails where
  activity : Activity
  runs : List Run
  logs : List LogEntry
  artifacts : List Artifact
deriving Repr, DecidableEq

/-- `get_activity_details` (main.py:511-532): exact lookup plus the
activity's runs, logs and resolved artifacts (unresolvable artifact ids are
dropped). -/
def get_activity_details (s : ServerState) (activity_id : String) :
    Option ActivityDetails :=
  match s.activities.find? (fun a => a.id == activity_id) with
  | none => none
  | some activity =>
    some { activity := activity,
           runs := (dictGet? activity_id s.activity_runs).getD [],
           logs := (dictGet? activity_id s.activity_logs).getD [],
           artifacts := activity.artifacts.filterMap
             (fun aid => dictGet? aid s.artifacts) }

/-- `cancel_activity` (main.py:565-580): 404 when the id is unknown, 400
when the status is not `queued`/`in_progress`; otherwise transition to
`cancelled`/`cancelled`, append an informational log, and emit the updated
activity. -/
def cancel_activity (s : ServerState) (activity_id : String) :
    Except ApiError ServerState :=
  match s.activities.find? (fun a => a.id == activity_id) with
  | none => Except.error (ApiError.notFound "Activity not found")
  | some activity =>
    if !(activity.status == "queued" || activity.status == "in_progress") then
      Except.error (ApiError.invalidState "Activity cannot be cancelled")
    else
      let s := update_activity_status s activity_id "cancelled" (some "cancelled")
      let s := log_activity s activity_id "info" "Activity cancelled by user" none
      let s := emit s (Event.activity_updated
        ((s.activities.find? (fun a => a.id == activity_id)).getD activity))
      Except.ok s

/-- `queue_scan` (main.py:102-128): 404 when the program is unknown;
otherwise insert a fresh `queued` scan with zeroed progress and counters
and emit its snapshot.  The spawned background simulation task is modelled
separately by `simulate_scan`. -/
def queue_scan (s : ServerState) (program_id : String) :
    Except ApiError (String × ServerState) :=
  match s.programs.find? (fun p => p.id == program_id) with
  | none => Except.error (ApiError.notFound "Program not found")
  | some _ =>
    let scan_id := freshId s.counter
    let scan : Scan :=
      { id := scan_id, programId := program_id, status := "queued",
        progress := 0, assetsFound := 0, vulnerabilitiesFound := 0,
        startTime := s.clock, activityId := none }
    let s := { s with scans := dictSet scan_id scan s.scans,
                      counter := s.counter + 1, clock := s.clock + 1 }
    let s := emit s (Event.scan_update scan)
    Except.ok (scan_id, s)

/-- One stage descriptor `(scanStatus, description, progressValue, jobName)`
of the simulation's fixed stage table (main.py:261-267). -/
structure StageDesc where
  scanStatus : String
  description : String
  progress : Int
  jobName : String
deriving Repr, DecidableEq

/-- Stage 1 of the table: `("scanning", "Asset Discovery", 20, "recon")`. -/
def stageRecon : StageDesc :=
  { scanStatus := "scanning", description := "Asset Discovery", progress := 20,
    jobName := "recon" }

/-- Stage 2 of the table: `("analyzing", "Vulnerability Analysis", 40,
"analysis")`. -/
def stageAnalysis : StageDesc :=
  { scanStatus := "analyzing", description := "Vulnerability Analysis", progress := 40,
    jobName := "analysis" }

/-- Stage 3 of the table: `("exploiting", "Exploit Testing", 70,
"exploitation")`. -/
def stageExploitation : StageDesc :=
  { scanStatus := "exploiting", description := "Exploit Testing", progress := 70,
    jobName := "exploitation" }

/-- Stage 4 of the table: `("reporting", "Report Generation", 90,
"reporting")`. -/
def stageReporting : StageDesc :=
  { scanStatus := "reporting", description := "Report Generation", progress := 90,
    jobName := "reporting" }

/-- Stage 5 of the table: `("completed", "Scan Complete", 100,
"completion")`. -/
def stageCompletion : StageDesc :=
  { scanStatus := "completed", description := "Scan Complete", progress := 100,
    jobName := "completion" }

/-- The fixed stage table of `simulate_scan` (main.py:261-267). -/
def stages : List StageDesc :=
  [stageRecon, stageAnalysis, stageExploitation, stageReporting, stageCompletion]

/-- Write the authoritative copy of a scan back to `SCAN_STATUSES` (in
Python the scan is a shared mutable dict, so every local mutation is
immediately visible in the registry). -/
def setScan (s : ServerState) (scan : Scan) : ServerState :=
  { s with scans := dictSet scan.id scan s.scans }

/-- The templated program-name fragment `program_name.lower().replace(' ',
'')` used in recon/exploitation artifacts (main.py:295, 328). -/
def mungeName (program_name : String) : String :=
  program_name.toLower.replace " " ""

/-- The recon-stage subdomain artifact content (main.py:295). -/
def subdomainList (program_name : String) : String :=
  "api." ++ mungeName program_name ++ ".com\nadmin." ++ mungeName program_name
    ++ ".com\napp." ++ mungeName program_name ++ ".com"

/-- The reporting-stage markdown report content (main.py:337-350). -/
def reportContent (program_name : String) (scan : Scan) : String :=
  "# Vulnerability Scan Report - " ++ program_name
    ++ "\n\n## Summary\n- Assets Discovered: " ++ toString scan.assetsFound
    ++ "\n- Vulnerabilities Found: " ++ toString scan.vulnerabilitiesFound
    ++ "\n- Severity: Medium\n- Estimated Payout: $5,000\n\n## Findings\n"
    ++ "1. Cross-Site Scripting (XSS) in search functionality\n"
    ++ "   - Impact: User session hijacking\n"
    ++ "   - Affected URL: search endpoint\n"
    ++ "   - CVSS: 6.5 (Medium)\n"

/-- The http-request artifact content of the exploitation stage
(main.py:328). -/
def httpRequestDump (program_name : String) : String :=
  "GET /search?q=<script>alert(1)</script> HTTP/1.1\nHost: "
    ++ mungeName program_name ++ ".com\n"

/-- The finding manufactured by the exploitation stage (main.py:310-320). -/
def newFinding (s : ServerState) (scan : Scan) (activity_id : String) : Finding :=
  { id := "f" ++ toString (s.findings.length + 1),
    programId := scan.programId, type := "XSS", severity := 6.5,
    status := "needs_human", payoutEst := 5000, timestamp := s.clock,
    evidence := ["XSS payload execution proof", "Impact demonstration"],
    activityId := some activity_id }

/-- Body of one loop iteration of `simulate_scan` after the stop check
(main.py:276-366): create the stage's run, set the scan's status/progress
and derived counters, log and publish, run the stage-specific side effects,
and mark the run completed.  The `await asyncio.sleep(2)` suspension has no
state effect of its own; externally injected stops are handled by
`stageLoop`. -/
def stageBody (s : ServerState) (scan : Scan) (activity_id program_name : String)
    (st : StageDesc) : ServerState × Scan :=
  let (run_id, s) := create_activity_run s activity_id st.jobName (some st.description)
  let scan := { scan with
    status := st.scanStatus, progress := st.progress,
    assetsFound := min (Int.fdiv st.progress 10) 15,
    vulnerabilitiesFound := max 0 (Int.fdiv (st.progress - 30) 20) }
  let s := setScan s scan
  let s := log_activity s activity_id "info" ("Started " ++ st.description) (some run_id)
  let s := emit s (Event.scan_update scan)
  let s :=
    if st.jobName == "recon" then
      let s := log_activity s activity_id "info"
        ("Discovering subdomains for " ++ program_name) (some run_id)
      let s := add_artifact s activity_id "subdomain_list.txt"
        (subdomainList program_name) "text" (some run_id)
      log_activity s activity_id "success"
        ("Found " ++ toString scan.assetsFound ++ " assets") (some run_id)
    else if st.jobName == "analysis" then
      let s := log_activity s activity_id "info"
        "Running Nuclei vulnerability templates" (some run_id)
      let s := log_activity s activity_id "info"
        "Checking for common misconfigurations" (some run_id)
      if scan.vulnerabilitiesFound > 0 then
        log_activity s activity_id "warning"
          ("Potential vulnerabilities detected: " ++ toString scan.vulnerabilitiesFound)
          (some run_id)
      else s
    else if st.jobName == "exploitation" then
      if scan.vulnerabilitiesFound > 0 then
        let s := log_activity s activity_id "info"
          "Generating safe proof-of-concept exploits" (some run_id)
        let finding := newFinding s scan activity_id
        let s := { s with findings := s.findings ++ [finding] }
        let s := add_artifact s activity_id "xss_poc.html"
          "<script>alert('XSS found in search parameter')</script>" "text" (some run_id)
        let s := add_artifact s activity_id "http_request.txt"
          (httpRequestDump program_name) "http_request" (some run_id)
        let s := log_activity s activity_id "success"
          ("Generated finding: " ++ finding.id) (some run_id)
        emit s (Event.new_finding finding)
      else s
    else if st.jobName == "reporting" then
      let s := log_activity s activity_id "info"
        "Compiling vulnerability report" (some run_id)
      if scan.vulnerabilitiesFound > 0 then
        let s := add_artifact s activity_id "vulnerability_report.md"
          (reportContent program_name scan) "text" (some run_id)
        log_activity s activity_id "success"
          "Vulnerability report generated" (some run_id)
      else
        log_activity s activity_id "info"
          "No vulnerabilities found - scan complete" (some run_id)
    else s
  let s :=
    if s.activities.any (fun a => a.id == activity_id) then
      let runs := (dictGet? activity_id s.activity_runs).getD []
      let completeRun := fun (r : Run) =>
        { r with status := "completed", conclusion := some "success",
                 endTime := some s.clock }
      let runs := updateFirst (fun r => r.id == run_id) completeRun runs
      { s with activity_runs := dictSet activity_id runs s.activity_runs,
               clock := s.clock + 1 }
    else s
  (s, scan)

/-- The stage loop of `simulate_scan` (main.py:270-366), with external stop
requests injected at suspension points: when `stopBefore = some i`, the
scan's status is flipped to `"stopped"` just before stage `i`'s boundary
check (a stop landing during stage `i - 1`'s awaits).  A stopped scan makes
the check cancel the activity, log a warning, and break out of the loop. -/
def stageLoop (activity_id program_name : String) (stopBefore : Option Nat) :
    ServerState → Scan → Nat → List StageDesc → ServerState × Scan
  | s, scan, _, [] => (s, scan)
  | s, scan, i, st :: rest =>
    let scan := if stopBefore == some i then { scan with status := "stopped" } else scan
    let s := if stopBefore == some i then setScan s scan else s
    if scan.status == "stopped" then
      let s := update_activity_status s activity_id "cancelled" (some "cancelled")
      let s := log_activity s activity_id "warning" "Scan cancelled by user" none
      (s, scan)
    else
      let (s, scan) := stageBody s scan activity_id program_name st
      stageLoop activity_id program_name stopBefore s scan (i + 1) rest

/-- The part of `simulate_scan` from its stage loop onward
(main.py:269-379): run the loop, complete the activity unless the scan was
stopped, and publish the final scan and activity snapshots.  Split out of
`simulate_scan` so the loop can be reasoned about against an arbitrary
post-prologue state. -/
def simulate_tail (s : ServerState) (scan : Scan) (activity_id program_name : String)
    (stopBefore : Option Nat) : ServerState :=
  let (s, scan) := stageLoop activity_id program_name stopBefore s scan 0 stages
  let scan := if stopBefore == some 5 then { scan with status := "stopped" } else scan
  let s := if stopBefore == some 5 then setScan s scan else s
  let s :=
    if !(scan.status == "stopped") then
      let s := update_activity_status s activity_id "completed" (some "success")
      log_activity s activity_id "success"
        ("Scan completed successfully. Found " ++ toString scan.vulnerabilitiesFound
          ++ " vulnerabilities.") none
    else s
  let s := emit s (Event.scan_update scan)
  match s.activities.find? (fun a => a.id == activity_id) with
  | some a => emit s (Event.activity_updated a)
  | none => s

/-- `simulate_scan` (main.py:243-379): look the scan up (a missing id is a
`KeyError`, modelled as `none`), create and start its activity, then hand
off to `simulate_tail`.  `stopBefore = some 5` injects a stop during the
final stage's sleep, observed only by the post-loop check; later stop
arrivals do not affect any modelled observable. -/
def simulate_scan (s : ServerState) (scan_id : String) (stopBefore : Option Nat) :
    Option ServerState :=
  match dictGet? scan_id s.scans with
  | none => none
  | some scan =>
    let program_name :=
      match s.programs.find? (fun p => p.id == scan.programId) with
      | some p => p.name
      | none => scan.programId
    let (activity_id, s) := create_activity s "scan"
      ("Vulnerability Scan: " ++ program_name) (some scan.programId) "automated"
    let scan := { scan with activityId := some activity_id }
    let s := setScan s scan
    let s := update_activity_status s activity_id "in_progress" none
    let s := log_activity s activity_id "info"
      ("Starting vulnerability scan for " ++ program_name) none
    some (simulate_tail s scan activity_id program_name stopBefore)

/-- The seeded startup state: the static `PROGRAMS` catalog, the three seed
`FINDINGS`, and empty scan/activity/run/log/artifact registries.  Seed
timestamps are fixed strings from before process start; they are modelled
as clock value 0. -/
def initialState : ServerState :=
  { programs :=
      [{ id := "h1-google", name := "Google VRP" },
       { id := "apple-vrp", name := "Apple Security Bounty" },
       { id := "msrc", name := "Microsoft (MSRC)" },
       { id := "github", name := "GitHub" }],
    findings :=
      [{ id := "f1", programId := "github", type := "IDOR", severity := 7.5,
         status := "ready_to_submit", payoutEst := 8000, timestamp := 0,
         evidence := ["Screenshot of unauthorized access",
                      "HTTP request showing missing authz check"],
         activityId := none },
       { id := "f2", programId := "h1-google", type := "SSRF", severity := 8.8,
         status := "needs_human", payoutEst := 25000, timestamp := 0,
         evidence := ["Internal service response",
                      "Network diagram showing impact"],
         activityId := none },
       { id := "f3", programId := "msrc", type := "AuthZ bypass", severity := 9.1,
         status := "queued", payoutEst := 15000, timestamp := 0,
         evidence := ["Admin panel access proof",
                      "User privilege escalation"],
         activityId := none }],
    scans := [], activities := [], activity_runs := [], activity_logs := [],
    artifacts := [], events := [], counter := 0, clock := 1 }

/-- The run list of an activity, as read from the runs index. -/
def runsFor (s : ServerState) (activity_id : String) : List Run :=
  (dictGet? activity_id s.activity_runs).getD []

/-- The log list of an activity, as read from the logs index. -/
def logsFor (s : ServerState) (activity_id : String) : List LogEntry :=
  (dictGet? activity_id s.activity_logs).getD []

theorem freshId_injective {m n : Nat} (h : freshId m = freshId n) : m = n := by
  have hlen : (freshId m).length = (freshId n).length := by rw [h]
  simpa [freshId, String.length] using hlen

theorem freshId_beq_eq (m n : Nat) : (freshId m == freshId n) = (m == n) := by
  by_cases h : m = n
  · simp [h]
  · have hne : freshId m ≠ freshId n := fun he => h (freshId_injective he)
    simp [h, hne]

theorem find?_map_key_of_mem (k : String) (v : β) (m : List (String × β))
    (h : dictMem k m = true) :
    (m.map (fun p => if p.1 = k then (k, v) else p)).find?
      (fun p => p.1 = k) = some (k, v) := by
  induction m with
  | nil => simp [dictMem] at h
  | cons p rest ih =>
    by_cases hp : p.1 = k
    · simp [List.find?, hp]
    · have hrest : dictMem k rest = true := by
        simp only [dictMem, List.any_cons, Bool.or_eq_true, decide_eq_true_eq] at h
        rcases h with h | h
        · exact absurd h hp
        · simpa [dictMem] using h
      simpa [List.find?, hp] using ih hrest

theorem dictGet?_dictSet_self (k : String) (v : β) (m : List (String × β)) :
    dictGet? k (dictSet k v m) = some v := by
  unfold dictSet
  by_cases h : dictMem k m = true
  · simp only [h, if_true, dictGet?, find?_map_key_of_mem k v m h, Option.map_some']
  · have hb : dictMem k m = false := by
      cases hc : dictMem k m
      · rfl
      · exact absurd hc h
    have hnone : m.find? (fun p => decide (p.1 = k)) = none := by
      rw [List.find?_eq_none]
      intro x hx
      simp only [dictMem, List.any_eq_false] at hb
      simpa using hb x hx
    simp [h, dictGet?, List.find?_append, hnone, List.find?]

theorem updateFirst_append_last (p : α → Bool) (f : α → α) (l : List α) (a : α)
    (h : ∀ x ∈ l, p x = false) :
    updateFirst p f (l ++ [a]) = l ++ [if p a then f a else a] := by
  induction l with
  | nil => cases hpa : p a <;> simp [updateFirst, hpa]
  | cons b bs ih =>
    have hb : p b = false := h b (by simp)
    have hbs : ∀ x ∈ bs, p x = false := fun x hx => h x (by simp [hx])
    simp [updateFirst, hb, ih hbs]

theorem find?_append_last (p : α → Bool) (l : List α) (a : α)
    (h : ∀ x ∈ l, p x = false) :
    List.find? p (l ++ [a]) = if p a then some a else none := by
  have hnone : l.find? p = none := List.find?_eq_none.mpr (by
    intro x hx
    simp [h x hx])
  cases hpa : p a <;> simp [List.find?_append, hnone, List.find?, hpa]

theorem updateFirst_of_split (p : α → Bool) (f : α → α) (l₁ l₂ : List α) (a : α)
    (h : ∀ x ∈ l₁, p x = false) (ha : p a = true) :
    updateFirst p f (l₁ ++ a :: l₂) = l₁ ++ f a :: l₂ := by
  induction l₁ with
  | nil => simp [updateFirst, ha]
  | cons b bs ih =>
    have hb : p b = false := h b (by simp)
    have hbs : ∀ x ∈ bs, p x = false := fun x hx => h x (by simp [hx])
    simp [updateFirst, hb, ih hbs]

theorem find?_of_split (p : α → Bool) (l₁ l₂ : List α) (a : α)
    (h : ∀ x ∈ l₁, p x = false) (ha : p a = true) :
    List.find? p (l₁ ++ a :: l₂) = some a := by
  have hnone : l₁.find? p = none := List.find?_eq_none.mpr (by
    intro x hx
    simp [h x hx])
  simp [List.find?_append, hnone, List.find?, ha]

theorem logsFor_log_activity_self (s : ServerState) (aid level msg : String)
    (rid : Option String) :
    logsFor (log_activity s aid level msg rid) aid =
      logsFor s aid ++ [{ timestamp := s.clock, level := level,
                          message := msg, runId := rid }] := by
  simp [logsFor, log_activity, dictGet?_dictSet_self]

theorem insertStartTimeDesc_perm (a : Activity) (l : List Activity) :
    (insertStartTimeDesc a l).Perm (a :: l) := by
  induction l with
  | nil => simp [insertStartTimeDesc]
  | cons b bs ih =>
    by_cases h : b.startTime ≤ a.startTime
    · simp [insertStartTimeDesc, h]
    · simp only [insertStartTimeDesc, h, if_false]
      exact (List.Perm.cons b ih).trans (List.Perm.swap a b bs)

theorem sortStartTimeDesc_perm (l : List Activity) :
    (sortStartTimeDesc l).Perm l := by
  induction l with
  | nil => simp [sortStartTimeDesc]
  | cons a as ih =>
    exact (insertStartTimeDesc_perm a (sortStartTimeDesc as)).trans (ih.cons a)

theorem mem_insertStartTimeDesc {x a : Activity} {l : List Activity} :
    x ∈ insertStartTimeDesc a l ↔ x = a ∨ x ∈ l := by
  rw [(insertStartTimeDesc_perm a l).mem_iff]
  simp

theorem pairwise_insertStartTimeDesc {a : Activity} {l : List Activity}
    (h : l.Pairwise (fun x y => y.startTime ≤ x.startTime)) :
    (insertStartTimeDesc a l).Pairwise (fun x y => y.startTime ≤ x.startTime) := by
  induction l with
  | nil => simp [insertStartTimeDesc]
  | cons b bs ih =>
    rcases List.pairwise_cons.mp h with ⟨hb, hbs⟩
    by_cases hba : b.startTime ≤ a.startTime
    · rw [show insertStartTimeDesc a (b :: bs) = a :: b :: bs from by
        simp [insertStartTimeDesc, hba]]
      refine List.pairwise_cons.mpr ⟨?_, h⟩
      intro y hy
      rcases List.mem_cons.mp hy with hy | hy
      · subst hy
        exact hba
      · exact le_trans (hb y hy) hba
    · rw [show insertStartTimeDesc a (b :: bs) = b :: insertStartTimeDesc a bs from by
        simp [insertStartTimeDesc, hba]]
      refine List.pairwise_cons.mpr ⟨?_, ih hbs⟩
      intro y hy
      rcases mem_insertStartTimeDesc.mp hy with hy | hy
      · subst hy
        exact le_of_not_le hba
      · exact hb y hy

theorem sortStartTimeDesc_pairwise (l : List Activity) :
    (sortStartTimeDesc l).Pairwise (fun x y => y.startTime ≤ x.startTime) := by
  induction l with
  | nil => simp [sortStartTimeDesc]
  | cons a as ih => exact pairwise_insertStartTimeDesc ih

theorem filter_insertStartTimeDesc (k : Nat) (a : Activity) (l : List Activity) :
    (insertStartTimeDesc a l).filter (fun x => x.startTime == k) =
      (if a.startTime == k
        then a :: l.filter (fun x => x.startTime == k)
        else l.filter (fun x => x.startTime == k)) := by
  induction l with
  | nil => cases h : (a.startTime == k) <;> simp [insertStartTimeDesc, List.filter, h]
  | cons b bs ih =>
    by_cases hba : b.startTime ≤ a.startTime
    · cases hak : (a.startTime == k) <;> simp [insertStartTimeDesc, hba, List.filter, hak]
    · have hlt : a.startTime < b.startTime := lt_of_not_le hba
      cases hak : (a.startTime == k)
      · simp only [insertStartTimeDesc, hba, if_false]
        cases hbk : (b.startTime == k) <;>
          simp [List.filter, hbk, hak, ih]
      · have hak' : a.startTime = k := by simpa using hak
        have hbk : (b.startTime == k) = false := by
          simp only [beq_eq_false_iff_ne]
          omega
        simp only [insertStartTimeDesc, hba, if_false]
        simp [List.filter, hbk, hak, ih]

theorem filter_sortStartTimeDesc (k : Nat) (l : List Activity) :
    (sortStartTimeDesc l).filter (fun x => x.startTime == k) =
      l.filter (fun x => x.startTime == k) := by
  induction l with
  | nil => simp [sortStartTimeDesc]
  | cons a as ih =>
    cases hak : (a.startTime == k) <;>
      simp [sortStartTimeDesc, filter_insertStartTimeDesc, hak, List.filter, ih]

/-- Activity records reachable through the exposed operations.  Each
constructor is one call-site shape that mutates an activity record:
* `created` — `create_activity` (any caller);
* `started` — `update_activity_status(id, "in_progress")` at main.py:258,
  which runs with no intervening suspension point directly after
  `create_activity`, so the activity it hits is still `queued`;
* `cancelled` — `update_activity_status(id, "cancelled", "cancelled")` at
  main.py:272 (simulation stop check) and main.py:575 (`cancel_activity`);
* `completed` — `update_activity_status(id, "completed", "success")` at
  main.py:370;
* `failed` — `update_activity_status(id, "failed", "failure")` at
  main.py:374;
* `linked_artifact` — the artifact-id append of `add_artifact`
  (main.py:469-472);
* `refreshed_runCount` — the run-count refresh of `get_activities`
  (main.py:502-503). -/
inductive ActivityReach : Activity → Prop where
  | created (activity_type title : String) (program_id : Option String)
      (triggered_by activity_id : String) (now : Nat) :
      ActivityReach (initActivity activity_type title program_id triggered_by
        activity_id now)
  | started {a : Activity} (now : Nat) (h : ActivityReach a)
      (hq : a.status = "queued") :
      ActivityReach (applyStatusUpdate a "in_progress" none now)
  | cancelled {a : Activity} (now : Nat) (h : ActivityReach a) :
      ActivityReach (applyStatusUpdate a "cancelled" (some "cancelled") now)
  | completed {a : Activity} (now : Nat) (h : ActivityReach a) :
      ActivityReach (applyStatusUpdate a "completed" (some "success") now)
  | failed {a : Activity} (now : Nat) (h : ActivityReach a) :
      ActivityReach (applyStatusUpdate a "failed" (some "failure") now)
  | linked_artifact {a : Activity} (artifact_id : String) (h : ActivityReach a) :
      ActivityReach { a with artifacts := a.artifacts ++ [artifact_id] }
  | refreshed_runCount {a : Activity} (n : Nat) (h : ActivityReach a) :
      ActivityReach { a with runCount := n }

/-- C3: for every Activity reachable through the exposed operations,
`endTime`, `duration` and `conclusion` are all non-null exactly when the
status is terminal (`completed`/`failed`/`cancelled`), and all null while
the status is `queued` or `in_progress`. -/
theorem activity_terminal_fields_iff (a : Activity) (h : ActivityReach a) :
    ((a.status = "completed" ∨ a.status = "failed" ∨ a.status = "cancelled") ↔
      (a.endTime ≠ none ∧ a.duration ≠ none ∧ a.conclusion ≠ none)) ∧
    ((a.status = "queued" ∨ a.status = "in_progress") →
      (a.endTime = none ∧ a.duration = none ∧ a.conclusion = none)) := by
  induction h with
  | created ty title pid trig aid now => simp [initActivity]
  | started now h hq ih =>
    have hnull := ih.2 (Or.inl hq)
    simp [applyStatusUpdate, pyTruthyStr, hnull.1, hnull.2.1, hnull.2.2]
  | cancelled now h ih => simp [applyStatusUpdate, pyTruthyStr]
  | completed now h ih => simp [applyStatusUpdate, pyTruthyStr]
  | failed now h ih => simp [applyStatusUpdate, pyTruthyStr]
  | linked_artifact aid h ih => simpa using ih
  | refreshed_runCount n h ih => simpa using ih

/-- The scan record written at a stage checkpoint (main.py:279-282), with
its derived counters already evaluated. -/
def scanAtStage (scan : Scan) (status : String) (progress assets vulns : Int) : Scan :=
  { scan with status := status, progress := progress,
              assetsFound := assets, vulnerabilitiesFound := vulns }

/-- A run record as it looks after its stage finished (created by
`create_activity_run`, then marked `completed`/`success` by the
run-completion loop at main.py:357-366). -/
def completedRun (aid job : String) (step : Option String) (rid : String)
    (c1 c2 : Nat) : Run :=
  { id := rid, activityId := aid, jobName := job, stepName := step,
    status := "completed", startTime := c1, endTime := some c2, duration := none,
    conclusion := some "success", logs := [], artifacts := [] }

/-- The synthetic XSS finding of the exploitation stage (main.py:310-320),
as a function of the pre-append findings count, the owning program and
activity, and the creation timestamp. -/
def xssFinding (n : Nat) (pid aid : String) (ts : Nat) : Finding :=
  { id := "f" ++ toString (n + 1), programId := pid, type := "XSS", severity := 6.5,
    status := "needs_human", payoutEst := 5000, timestamp := ts,
    evidence := ["XSS payload execution proof", "Impact demonstration"],
    activityId := some aid }

theorem stageLoop_nil (aid pn : String) (sb : Option Nat) (s : ServerState)
    (scan : Scan) (i : Nat) :
    stageLoop aid pn sb s scan i [] = (s, scan) := rfl

theorem stageLoop_cons (aid pn : String) (sb : Option Nat) (s : ServerState)
    (scan : Scan) (i : Nat) (st : StageDesc) (rest : List StageDesc) :
    stageLoop aid pn sb s scan i (st :: rest) =
      (let scan2 := if sb == some i then { scan with status := "stopped" } else scan
       let s2 := if sb == some i then setScan s scan2 else s
       if scan2.status == "stopped" then
         let s3 := update_activity_status s2 aid "cancelled" (some "cancelled")
         let s4 := log_activity s3 aid "warning" "Scan cancelled by user" none
         (s4, scan2)
       else
         stageLoop aid pn sb (stageBody s2 scan2 aid pn st).1
           (stageBody s2 scan2 aid pn st).2 (i + 1) rest) := rfl

/-- Effect of one recon-stage iteration body on every component the claims
observe, for a state whose activity ledger is `base ++ [act]` with `base`
free of the activity's id and whose run list is `L`. -/
theorem stageBody_recon (s : ServerState) (scan : Scan) (aid pn : String)
    (base : List Activity) (act : Activity) (L : List Run)
    (hact : s.activities = base ++ [act])
    (hbase : ∀ x ∈ base, (x.id == aid) = false)
    (hid : act.id = aid)
    (hruns : dictGet? aid s.activity_runs = some L)
    (hL : ∀ r ∈ L, (r.id == freshId s.counter) = false) :
    (stageBody s scan aid pn stageRecon).2 = scanAtStage scan "scanning" 20 2 0 ∧
    (stageBody s scan aid pn stageRecon).1.programs = s.programs ∧
    (stageBody s scan aid pn stageRecon).1.findings = s.findings ∧
    (stageBody s scan aid pn stageRecon).1.scans =
      dictSet scan.id (scanAtStage scan "scanning" 20 2 0) s.scans ∧
    (stageBody s scan aid pn stageRecon).1.activities =
      base ++ [{ act with artifacts := act.artifacts ++ [freshId (s.counter + 1)] }] ∧
    (∃ c1 c2, dictGet? aid (stageBody s scan aid pn stageRecon).1.activity_runs =
      some (L ++ [completedRun aid "recon" (some "Asset Discovery")
        (freshId s.counter) c1 c2])) ∧
    (∃ art, (stageBody s scan aid pn stageRecon).1.artifacts =
      dictSet (freshId (s.counter + 1)) art s.artifacts) ∧
    (stageBody s scan aid pn stageRecon).1.events =
      s.events ++ [Event.scan_update (scanAtStage scan "scanning" 20 2 0)] ∧
    (stageBody s scan aid pn stageRecon).1.counter = s.counter + 2 := by
  have hupd : ∀ (f : Activity → Activity) (x : Activity),
      updateFirst (fun a => a.id == aid) f (base ++ [x]) =
        base ++ [if x.id == aid then f x else x] :=
    fun f x => updateFirst_append_last _ f _ x hbase
  have hany : base.any (fun a => a.id == aid) = false :=
    List.any_eq_false.mpr (by intro x hx; simp [hbase x hx])
  have hLupd : ∀ (g : Run → Run) (r0 : Run),
      updateFirst (fun r => r.id == freshId s.counter) g (L ++ [r0]) =
        L ++ [if r0.id == freshId s.counter then g r0 else r0] :=
    fun g r0 => updateFirst_append_last _ g _ r0 hL
  have e1 : Int.fdiv 20 10 = 2 := by decide
  have e2 : min (2:Int) 15 = 2 := by decide
  have e3 : (20:Int) - 30 = -10 := by decide
  have e4 : Int.fdiv (-10) 20 = -1 := by decide
  have e5 : max (0:Int) (-1) = 0 := by decide
  simp [stageBody, stageRecon, scanAtStage, completedRun, create_activity_run,
    log_activity, add_artifact, emit, setScan,
    hruns, dictGet?_dictSet_self, hact, hupd, hany, hid, hLupd,
    e1, e2, e3, e4, e5]
  exact ⟨_, rfl⟩

/-- Effect of one analysis-stage iteration body on every component the
claims observe. -/
theorem stageBody_analysis (s : ServerState) (scan : Scan) (aid pn : String)
    (base : List Activity) (act : Activity) (L : List Run)
    (hact : s.activities = base ++ [act])
    (hbase : ∀ x ∈ base, (x.id == aid) = false)
    (hid : act.id = aid)
    (hruns : dictGet? aid s.activity_runs = some L)
    (hL : ∀ r ∈ L, (r.id == freshId s.counter) = false) :
    (stageBody s scan aid pn stageAnalysis).2 = scanAtStage scan "analyzing" 40 4 0 ∧
    (stageBody s scan aid pn stageAnalysis).1.programs = s.programs ∧
    (stageBody s scan aid pn stageAnalysis).1.findings = s.findings ∧
    (stageBody s scan aid pn stageAnalysis).1.scans =
      dictSet scan.id (scanAtStage scan "analyzing" 40 4 0) s.scans ∧
    (stageBody s scan aid pn stageAnalysis).1.activities = base ++ [act] ∧
    (∃ c1 c2, dictGet? aid (stageBody s scan aid pn stageAnalysis).1.activity_runs =
      some (L ++ [completedRun aid "analysis" (some "Vulnerability Analysis")
        (freshId s.counter) c1 c2])) ∧
    (stageBody s scan aid pn stageAnalysis).1.artifacts = s.artifacts ∧
    (stageBody s scan aid pn stageAnalysis).1.events =
      s.events ++ [Event.scan_update (scanAtStage scan "analyzing" 40 4 0)] ∧
    (stageBody s scan aid pn stageAnalysis).1.counter = s.counter + 1 := by
  have hany : base.any (fun a => a.id == aid) = false :=
    List.any_eq_false.mpr (by intro x hx; simp [hbase x hx])
  have hLupd : ∀ (g : Run → Run) (r0 : Run),
      updateFirst (fun r => r.id == freshId s.counter) g (L ++ [r0]) =
        L ++ [if r0.id == freshId s.counter then g r0 else r0] :=
    fun g r0 => updateFirst_append_last _ g _ r0 hL
  have e1 : Int.fdiv 40 10 = 4 := by decide
  have e2 : min (4:Int) 15 = 4 := by decide
  have e3 : (40:Int) - 30 = 10 := by decide
  have e4 : Int.fdiv 10 20 = 0 := by decide
  have e5 : max (0:Int) 0 = 0 := by decide
  simp [stageBody, stageAnalysis, scanAtStage, completedRun, create_activity_run,
    log_activity, add_artifact, emit, setScan,
    hruns, dictGet?_dictSet_self, hact, hany, hid, hLupd,
    e1, e2, e3, e4, e5]

/-- Effect of one exploitation-stage iteration body on every component the
claims observe: in particular, exactly one synthetic XSS finding is
appended to the findings registry and published. -/
theorem stageBody_exploitation (s : ServerState) (scan : Scan) (aid pn : String)
    (base : List Activity) (act : Activity) (L : List Run)
    (hact : s.activities = base ++ [act])
    (hbase : ∀ x ∈ base, (x.id == aid) = false)
    (hid : act.id = aid)
    (hruns : dictGet? aid s.activity_runs = some L)
    (hL : ∀ r ∈ L, (r.id == freshId s.counter) = false) :
    (stageBody s scan aid pn stageExploitation).2 =
      scanAtStage scan "exploiting" 70 7 2 ∧
    (stageBody s scan aid pn stageExploitation).1.programs = s.programs ∧
    (∃ ts, (stageBody s scan aid pn stageExploitation).1.findings =
      s.findings ++ [xssFinding s.findings.length scan.programId aid ts] ∧
      (stageBody s scan aid pn stageExploitation).1.events =
        s.events ++ [Event.scan_update (scanAtStage scan "exploiting" 70 7 2),
          Event.new_finding (xssFinding s.findings.length scan.programId aid ts)]) ∧
    (stageBody s scan aid pn stageExploitation).1.scans =
      dictSet scan.id (scanAtStage scan "exploiting" 70 7 2) s.scans ∧
    (stageBody s scan aid pn stageExploitation).1.activities =
      base ++ [{ act with artifacts :=
        act.artifacts ++ [freshId (s.counter + 1), freshId (s.counter + 2)] }] ∧
    (∃ c1 c2, dictGet? aid
      (stageBody s scan aid pn stageExploitation).1.activity_runs =
      some (L ++ [completedRun aid "exploitation" (some "Exploit Testing")
        (freshId s.counter) c1 c2])) ∧
    (∃ a1 a2, (stageBody s scan aid pn stageExploitation).1.artifacts =
      dictSet (freshId (s.counter + 2)) a2
        (dictSet (freshId (s.counter + 1)) a1 s.artifacts)) ∧
    (stageBody s scan aid pn stageExploitation).1.counter = s.counter + 3 := by
  have hupd : ∀ (f : Activity → Activity) (x : Activity),
      updateFirst (fun a => a.id == aid) f (base ++ [x]) =
        base ++ [if x.id == aid then f x else x] :=
    fun f x => updateFirst_append_last _ f _ x hbase
  have hany : base.any (fun a => a.id == aid) = false :=
    List.any_eq_false.mpr (by intro x hx; simp [hbase x hx])
  have hLupd : ∀ (g : Run → Run) (r0 : Run),
      updateFirst (fun r => r.id == freshId s.counter) g (L ++ [r0]) =
        L ++ [if r0.id == freshId s.counter then g r0 else r0] :=
    fun g r0 => updateFirst_append_last _ g _ r0 hL
  have e1 : Int.fdiv 70 10 = 7 := by decide
  have e2 : min (7:Int) 15 = 7 := by decide
  have e3 : (70:Int) - 30 = 40 := by decide
  have e4 : Int.fdiv 40 20 = 2 := by decide
  have e5 : max (0:Int) 2 = 2 := by decide
  have e6 : (0:Int) < 2 := by decide
  simp [stageBody, stageExploitation, scanAtStage, completedRun, xssFinding,
    newFinding, create_activity_run, log_activity, add_artifact, emit, setScan,
    hruns, dictGet?_dictSet_self, hact, hupd, hany, hid, hLupd,
    e1, e2, e3, e4, e5, e6]
  exact ⟨_, _, rfl⟩

/-- Effect of one reporting-stage iteration body on every component the
claims observe. -/
theorem stageBody_reporting (s : ServerState) (scan : Scan) (aid pn : String)
    (base : List Activity) (act : Activity) (L : List Run)
    (hact : s.activities = base ++ [act])
    (hbase : ∀ x ∈ base, (x.id == aid) = false)
    (hid : act.id = aid)
    (hruns : dictGet? aid s.activity_runs = some L)
    (hL : ∀ r ∈ L, (r.id == freshId s.counter) = false) :
    (stageBody s scan aid pn stageReporting).2 = scanAtStage scan "reporting" 90 9 3 ∧
    (stageBody s scan aid pn stageReporting).1.programs = s.programs ∧
    (stageBody s scan aid pn stageReporting).1.findings = s.findings ∧
    (stageBody s scan aid pn stageReporting).1.scans =
      dictSet scan.id (scanAtStage scan "reporting" 90 9 3) s.scans ∧
    (stageBody s scan aid pn stageReporting).1.activities =
      base ++ [{ act with artifacts := act.artifacts ++ [freshId (s.counter + 1)] }] ∧
    (∃ c1 c2, dictGet? aid (stageBody s scan aid pn stageReporting).1.activity_runs =
      some (L ++ [completedRun aid "reporting" (some "Report Generation")
        (freshId s.counter) c1 c2])) ∧
    (∃ art, (stageBody s scan aid pn stageReporting).1.artifacts =
      dictSet (freshId (s.counter + 1)) art s.artifacts) ∧
    (stageBody s scan aid pn stageReporting).1.events =
      s.events ++ [Event.scan_update (scanAtStage scan "reporting" 90 9 3)] ∧
    (stageBody s scan aid pn stageReporting).1.counter = s.counter + 2 := by
  have hupd : ∀ (f : Activity → Activity) (x : Activity),
      updateFirst (fun a => a.id == aid) f (base ++ [x]) =
        base ++ [if x.id == aid then f x else x] :=
    fun f x => updateFirst_append_last _ f _ x hbase
  have hany : base.any (fun a => a.id == aid) = false :=
    List.any_eq_false.mpr (by intro x hx; simp [hbase x hx])
  have hLupd : ∀ (g : Run → Run) (r0 : Run),
      updateFirst (fun r => r.id == freshId s.counter) g (L ++ [r0]) =
        L ++ [if r0.id == freshId s.counter then g r0 else r0] :=
    fun g r0 => updateFirst_append_last _ g _ r0 hL
  have e1 : Int.fdiv 90 10 = 9 := by decide
  have e2 : min (9:Int) 15 = 9 := by decide
  have e3 : (90:Int) - 30 = 60 := by decide
  have e4 : Int.fdiv 60 20 = 3 := by decide
  have e5 : max (0:Int) 3 = 3 := by decide
  have e6 : (0:Int) < 3 := by decide
  simp [stageBody, stageReporting, scanAtStage, completedRun, create_activity_run,
    log_activity, add_artifact, emit, setScan,
    hruns, dictGet?_dictSet_self, hact, hupd, hany, hid, hLupd,
    e1, e2, e3, e4, e5, e6]
  exact ⟨_, rfl⟩

/-- Effect of one completion-stage iteration body on every component the
claims observe. -/
theorem stageBody_completion (s : ServerState) (scan : Scan) (aid pn : String)
    (base : List Activity) (act : Activity) (L : List Run)
    (hact : s.activities = base ++ [act])
    (hbase : ∀ x ∈ base, (x.id == aid) = false)
    (hid : act.id = aid)
    (hruns : dictGet? aid s.activity_runs = some L)
    (hL : ∀ r ∈ L, (r.id == freshId s.counter) = false) :
    (stageBody s scan aid pn stageCompletion).2 =
      scanAtStage scan "completed" 100 10 3 ∧
    (stageBody s scan aid pn stageCompletion).1.programs = s.programs ∧
    (stageBody s scan aid pn stageCompletion).1.findings = s.findings ∧
    (stageBody s scan aid pn stageCompletion).1.scans =
      dictSet scan.id (scanAtStage scan "completed" 100 10 3) s.scans ∧
    (stageBody s scan aid pn stageCompletion).1.activities = base ++ [act] ∧
    (∃ c1 c2, dictGet? aid (stageBody s scan aid pn stageCompletion).1.activity_runs =
      some (L ++ [completedRun aid "completion" (some "Scan Complete")
        (freshId s.counter) c1 c2])) ∧
    (stageBody s scan aid pn stageCompletion).1.artifacts = s.artifacts ∧
    (stageBody s scan aid pn stageCompletion).1.events =
      s.events ++ [Event.scan_update (scanAtStage scan "completed" 100 10 3)] ∧
    (stageBody s scan aid pn stageCompletion).1.counter = s.counter + 1 := by
  have hany : base.any (fun a => a.id == aid) = false :=
    List.any_eq_false.mpr (by intro x hx; simp [hbase x hx])
  have hLupd : ∀ (g : Run → Run) (r0 : Run),
      updateFirst (fun r => r.id == freshId s.counter) g (L ++ [r0]) =
        L ++ [if r0.id == freshId s.counter then g r0 else r0] :=
    fun g r0 => updateFirst_append_last _ g _ r0 hL
  have e1 : Int.fdiv 100 10 = 10 := by decide
  have e2 : min (10:Int) 15 = 10 := by decide
  have e3 : (100:Int) - 30 = 70 := by decide
  have e4 : Int.fdiv 70 20 = 3 := by decide
  have e5 : max (0:Int) 3 = 3 := by decide
  simp [stageBody, stageCompletion, scanAtStage, completedRun, create_activity_run,
    log_activity, add_artifact, emit, setScan,
    hruns, dictGet?_dictSet_self, hact, hany, hid, hLupd,
    e1, e2, e3, e4, e5]

theorem scanAtStage_status (scan : Scan) (st : String) (p a v : Int) :
    (scanAtStage scan st p a v).status = st := rfl

theorem scanAtStage_id (scan : Scan) (st : String) (p a v : Int) :
    (scanAtStage scan st p a v).id = scan.id := rfl

theorem scanAtStage_programId (scan : Scan) (st : String) (p a v : Int) :
    (scanAtStage scan st p a v).programId = scan.programId := rfl

theorem scanAtStage_scanAtStage (scan : Scan) (st st2 : String)
    (p a v p2 a2 v2 : Int) :
    scanAtStage (scanAtStage scan st p a v) st2 p2 a2 v2 =
      scanAtStage scan st2 p2 a2 v2 := rfl

theorem applyStatusUpdate_completed (a : Activity) (now : Nat) :
    applyStatusUpdate a "completed" (some "success") now =
      { a with status := "completed", conclusion := some "success",
               endTime := some now,
               duration := some ((now : Int) - (a.startTime : Int)) } := by
  simp [applyStatusUpdate, pyTruthyStr]

theorem applyStatusUpdate_cancelled (a : Activity) (now : Nat) :
    applyStatusUpdate a "cancelled" (some "cancelled") now =
      { a with status := "cancelled", conclusion := some "cancelled",
               endTime := some now,
               duration := some ((now : Int) - (a.startTime : Int)) } := by
  simp [applyStatusUpdate, pyTruthyStr]

/-- Effect of the prologue of `simulate_scan` (main.py:243-259) on an
arbitrary state holding the scan: the simulation reduces to
`simulate_tail` started from a state whose ledger gained one fresh
`in_progress` activity with an empty run list. -/
theorem simulate_prologue (s : ServerState) (scan_id : String) (sc : Scan)
    (hsc : dictGet? scan_id s.scans = some sc)
    (hfresh0 : ∀ x ∈ s.activities, (x.id == freshId s.counter) = false) :
    ∃ pn s1 a0,
      (∀ sb, simulate_scan s scan_id sb =
        some (simulate_tail s1 { sc with activityId := some (freshId s.counter) }
          (freshId s.counter) pn sb)) ∧
      s1.activities = s.activities ++ [a0] ∧
      a0.id = freshId s.counter ∧
      a0.status = "in_progress" ∧
      a0.endTime = none ∧ a0.duration = none ∧ a0.conclusion = none ∧
      dictGet? (freshId s.counter) s1.activity_runs = some [] ∧
      s1.findings = s.findings ∧
      s1.artifacts = s.artifacts ∧
      s1.events = s.events ∧
      s1.counter = s.counter + 1 := by
  have hupd : ∀ (f : Activity → Activity) (x : Activity),
      updateFirst (fun a => a.id == freshId s.counter) f (s.activities ++ [x]) =
        s.activities ++ [if x.id == freshId s.counter then f x else x] :=
    fun f x => updateFirst_append_last _ f _ x hfresh0
  refine
    ⟨(match s.programs.find? (fun p => p.id == sc.programId) with
      | some p => p.name
      | none => sc.programId),
     { s with
        activities := s.activities ++
          [{ id := freshId s.counter, type := "scan",
             title := "Vulnerability Scan: " ++
               (match s.programs.find? (fun p => p.id == sc.programId) with
                | some p => p.name
                | none => sc.programId),
             programId := some sc.programId, triggeredBy := "automated",
             status := "in_progress", startTime := s.clock,
             endTime := none, duration := none, conclusion := none,
             artifacts := [], runCount := 0 }],
        scans := dictSet sc.id { sc with activityId := some (freshId s.counter) } s.scans,
        activity_runs := dictSet (freshId s.counter) [] s.activity_runs,
        activity_logs := dictSet (freshId s.counter)
          [{ timestamp := s.clock + 2, level := "info",
             message := "Starting vulnerability scan for " ++
               (match s.programs.find? (fun p => p.id == sc.programId) with
                | some p => p.name
                | none => sc.programId),
             runId := none }]
          (dictSet (freshId s.counter) [] s.activity_logs),
        counter := s.counter + 1,
        clock := s.clock + 3 },
     { id := freshId s.counter, type := "scan",
       title := "Vulnerability Scan: " ++
         (match s.programs.find? (fun p => p.id == sc.programId) with
          | some p => p.name
          | none => sc.programId),
       programId := some sc.programId, triggeredBy := "automated",
       status := "in_progress", startTime := s.clock,
       endTime := none, duration := none, conclusion := none,
       artifacts := [], runCount := 0 },
     fun sb => ?_, by simp, by simp, by simp, by simp, by simp, by simp,
     by simp [dictGet?_dictSet_self], by simp, by simp, by simp, by simp⟩
  simp only [simulate_scan, hsc, create_activity, initActivity, setScan,
    update_activity_status, applyStatusUpdate, pyTruthyStr, log_activity,
    dictGet?_dictSet_self, Option.getD_some, hupd]
  simp

set_option maxHeartbeats 4000000 in
/-- Effect of `simulate_tail` when no stop request is observable at any
boundary check: all five stages run, the activity completes with
`success`, exactly one finding is appended, and the scan ends completed at
progress 100. -/
theorem simulate_tail_nostop (s1 : ServerState) (scan1 : Scan) (aid pn : String)
    (sb : Option Nat) (base : List Activity) (a0 : Activity)
    (hnb : ∀ i, i < 6 → (sb == some i) = false)
    (hstat : (scan1.status == "stopped") = false)
    (hact : s1.activities = base ++ [a0])
    (hbase : ∀ x ∈ base, (x.id == aid) = false)
    (ha0 : a0.id = aid)
    (hruns : dictGet? aid s1.activity_runs = some []) :
    ∃ a R ts,
      (simulate_tail s1 scan1 aid pn sb).activities = base ++ [a] ∧
      a.id = aid ∧ a.status = "completed" ∧ a.conclusion = some "success" ∧
      a.endTime ≠ none ∧ a.duration ≠ none ∧
      dictGet? aid (simulate_tail s1 scan1 aid pn sb).activity_runs = some R ∧
      R.map (fun r => r.jobName) =
        ["recon", "analysis", "exploitation", "reporting", "completion"] ∧
      (∀ r ∈ R, r.status = "completed" ∧ r.conclusion = some "success") ∧
      (simulate_tail s1 scan1 aid pn sb).findings =
        s1.findings ++ [xssFinding s1.findings.length scan1.programId aid ts] ∧
      dictGet? scan1.id (simulate_tail s1 scan1 aid pn sb).scans =
        some (scanAtStage scan1 "completed" 100 10 3) := by
  have hnb0 : (sb == some 0) = false := hnb 0 (by omega)
  have hnb1 : (sb == some 1) = false := hnb 1 (by omega)
  have hnb2 : (sb == some 2) = false := hnb 2 (by omega)
  have hnb3 : (sb == some 3) = false := hnb 3 (by omega)
  have hnb4 : (sb == some 4) = false := hnb 4 (by omega)
  have hnb5 : (sb == some 5) = false := hnb 5 (by omega)
  have hupdB : ∀ (f : Activity → Activity) (x : Activity),
      updateFirst (fun a => a.id == aid) f (base ++ [x]) =
        base ++ [if x.id == aid then f x else x] :=
    fun f x => updateFirst_append_last _ f _ x hbase
  have hfindB : ∀ x : Activity,
      List.find? (fun a => a.id == aid) (base ++ [x]) =
        if x.id == aid then some x else none :=
    fun x => find?_append_last _ _ x hbase
  -- stage 1: recon
  obtain ⟨hA, hB, hC, hD, hE, ⟨c1, c2, hF⟩, ⟨art1, hG⟩, hH, hI⟩ :=
    stageBody_recon s1 scan1 aid pn base a0 [] hact hbase ha0 hruns (by simp)
  simp only [List.nil_append] at hF
  have hL1gen : ∀ n, n = s1.counter + 2 →
      ∀ r ∈ [completedRun aid "recon" (some "Asset Discovery")
        (freshId s1.counter) c1 c2],
      (r.id == freshId n) = false := by
    rintro n rfl r hr
    simp only [List.mem_singleton] at hr
    subst hr
    simp only [completedRun, freshId_beq_eq, beq_eq_false_iff_ne]
    omega
  -- stage 2: analysis
  obtain ⟨hA2, hB2, hC2, hD2, hE2, ⟨c3, c4, hF2⟩, hG2, hH2, hI2⟩ :=
    stageBody_analysis (stageBody s1 scan1 aid pn stageRecon).1
      (scanAtStage scan1 "scanning" 20 2 0) aid pn base _ _ hE hbase
      (by simp [ha0]) hF (hL1gen _ hI)
  rw [hI] at hF2 hI2
  simp only [List.singleton_append] at hF2
  have hL2gen : ∀ n, n = s1.counter + 2 + 1 →
      ∀ r ∈ [completedRun aid "recon" (some "Asset Discovery")
        (freshId s1.counter) c1 c2,
      completedRun aid "analysis" (some "Vulnerability Analysis")
        (freshId (s1.counter + 2)) c3 c4],
      (r.id == freshId n) = false := by
    rintro n rfl r hr
    simp only [List.mem_cons, List.not_mem_nil, or_false] at hr
    rcases hr with hr | hr <;>
      (subst hr; simp only [completedRun, freshId_beq_eq, beq_eq_false_iff_ne]; omega)
  -- stage 3: exploitation
  obtain ⟨hA3, hB3, ⟨ts, hC3, hH3⟩, hD3, hE3, ⟨c5, c6, hF3⟩, ⟨ar1, ar2, hG3⟩, hI3⟩ :=
    stageBody_exploitation _ (scanAtStage scan1 "analyzing" 40 4 0) aid pn base _ _
      hE2 hbase (by simp [ha0]) hF2 (hL2gen _ hI2)
  rw [hI2] at hF3 hI3
  simp only [List.append_assoc, List.singleton_append, List.cons_append,
    List.nil_append] at hF3
  have hL3gen : ∀ n, n = s1.counter + 2 + 1 + 3 →
      ∀ r ∈ [completedRun aid "recon" (some "Asset Discovery")
        (freshId s1.counter) c1 c2,
      completedRun aid "analysis" (some "Vulnerability Analysis")
        (freshId (s1.counter + 2)) c3 c4,
      completedRun aid "exploitation" (some "Exploit Testing")
        (freshId (s1.counter + 2 + 1)) c5 c6],
      (r.id == freshId n) = false := by
    rintro n rfl r hr
    simp only [List.mem_cons, List.not_mem_nil, or_false] at hr
    rcases hr with hr | hr | hr <;>
      (subst hr; simp only [completedRun, freshId_beq_eq, beq_eq_false_iff_ne]; omega)
  -- stage 4: reporting
  obtain ⟨hA4, hB4, hC4, hD4, hE4, ⟨c7, c8, hF4⟩, ⟨ar3, hG4⟩, hH4, hI4⟩ :=
    stageBody_reporting _ (scanAtStage scan1 "exploiting" 70 7 2) aid pn base _ _
      hE3 hbase (by simp [ha0]) hF3 (hL3gen _ hI3)
  rw [hI3] at hF4 hI4
  simp only [List.append_assoc, List.singleton_append, List.cons_append,
    List.nil_append] at hF4
  have hL4gen : ∀ n, n = s1.counter + 2 + 1 + 3 + 2 →
      ∀ r ∈ [completedRun aid "recon" (some "Asset Discovery")
        (freshId s1.counter) c1 c2,
      completedRun aid "analysis" (some "Vulnerability Analysis")
        (freshId (s1.counter + 2)) c3 c4,
      completedRun aid "exploitation" (some "Exploit Testing")
        (freshId (s1.counter + 2 + 1)) c5 c6,
      completedRun aid "reporting" (some "Report Generation")
        (freshId (s1.counter + 2 + 1 + 3)) c7 c8],
      (r.id == freshId n) = false := by
    rintro n rfl r hr
    simp only [List.mem_cons, List.not_mem_nil, or_false] at hr
    rcases hr with hr | hr | hr | hr <;>
      (subst hr; simp only [completedRun, freshId_beq_eq, beq_eq_false_iff_ne]; omega)
  -- stage 5: completion
  obtain ⟨hA5, hB5, hC5, hD5, hE5, ⟨c9, c10, hF5⟩, hG5, hH5, hI5⟩ :=
    stageBody_completion _ (scanAtStage scan1 "reporting" 90 9 3)
      aid pn base _ _ hE4 hbase (by simp [ha0]) hF4 (hL4gen _ hI4)
  rw [hI4] at hF5
  simp only [List.append_assoc, List.singleton_append, List.cons_append,
    List.nil_append] at hF5
  simp [simulate_tail, stages, stageLoop_cons, stageLoop_nil,
    hnb0, hnb1, hnb2, hnb3, hnb4, hnb5, hstat,
    hA, hA2, hA3, hA4, hA5, hE5, hupdB, hfindB, ha0,
    applyStatusUpdate_completed, update_activity_status, log_activity, emit,
    scanAtStage_status, scanAtStage_id, scanAtStage_programId,
    scanAtStage_scanAtStage,
    hF5, hC, hC2, hC3, hC4, hC5, hD5, dictGet?_dictSet_self,
    completedRun, xssFinding]

theorem dictMem_map_key (k k2 : String) (v : β) (m : List (String × β)) :
    dictMem k (m.map (fun p => if p.1 = k2 then (k2, v) else p)) = dictMem k m := by
  simp only [dictMem, List.any_map]
  congr 1
  funext p
  by_cases hp : p.1 = k2
  · simp [hp, Function.comp]
  · simp [hp, Function.comp]

theorem dictMem_dictSet_of_ne (k k2 : String) (v : β) (m : List (String × β))
    (h : k2 ≠ k) :
    dictMem k (dictSet k2 v m) = dictMem k m := by
  by_cases hm : dictMem k2 m = true
  · rw [dictSet, if_pos hm, dictMem_map_key]
  · have hm2 : dictMem k2 m = false := by
      cases hc : dictMem k2 m
      · rfl
      · exact absurd hc hm
    rw [dictSet, if_neg (by simp [hm2])]
    simp [dictMem, h]

theorem length_dictSet_not_mem (k : String) (v : β) (m : List (String × β))
    (h : dictMem k m = false) :
    (dictSet k v m).length = m.length + 1 := by
  simp [dictSet, h]

/-- Effect of `simulate_tail` when the stop request is observable already at
the first boundary check: no stage executes, no run, finding or artifact is
created, and the activity is cancelled. -/
theorem simulate_tail_stop0 (s1 : ServerState) (scan1 : Scan) (aid pn : String)
    (base : List Activity) (a0 : Activity)
    (hact : s1.activities = base ++ [a0])
    (hbase : ∀ x ∈ base, (x.id == aid) = false)
    (ha0 : a0.id = aid)
    (hruns : dictGet? aid s1.activity_runs = some []) :
    ∃ a,
      (simulate_tail s1 scan1 aid pn (some 0)).activities = base ++ [a] ∧
      a.id = aid ∧ a.status = "cancelled" ∧ a.conclusion = some "cancelled" ∧
      dictGet? aid (simulate_tail s1 scan1 aid pn (some 0)).activity_runs =
        some [] ∧
      (simulate_tail s1 scan1 aid pn (some 0)).findings = s1.findings ∧
      (simulate_tail s1 scan1 aid pn (some 0)).artifacts = s1.artifacts ∧
      dictGet? scan1.id (simulate_tail s1 scan1 aid pn (some 0)).scans =
        some { scan1 with status := "stopped" } := by
  have hupdB : ∀ (f : Activity → Activity) (x : Activity),
      updateFirst (fun a => a.id == aid) f (base ++ [x]) =
        base ++ [if x.id == aid then f x else x] :=
    fun f x => updateFirst_append_last _ f _ x hbase
  have hfindB : ∀ x : Activity,
      List.find? (fun a => a.id == aid) (base ++ [x]) =
        if x.id == aid then some x else none :=
    fun x => find?_append_last _ _ x hbase
  simp [simulate_tail, stages, stageLoop_cons, hact, hupdB, hfindB, ha0, hruns,
    applyStatusUpdate_cancelled, update_activity_status, log_activity, emit,
    setScan, dictGet?_dictSet_self]

theorem freshId_ne_of_ne {m n : Nat} (h : m ≠ n) : freshId m ≠ freshId n :=
  fun he => h (freshId_injective he)

set_option maxHeartbeats 4000000 in
/-- Effect of `simulate_tail` when the stop request is observable at the
second boundary check: only the recon stage executes, no finding is
appended, exactly one artifact exists beyond the initial ones, and the
activity is cancelled. -/
theorem simulate_tail_stop1 (s1 : ServerState) (scan1 : Scan) (aid pn : String)
    (base : List Activity) (a0 : Activity)
    (hstat : (scan1.status == "stopped") = false)
    (hact : s1.activities = base ++ [a0])
    (hbase : ∀ x ∈ base, (x.id == aid) = false)
    (ha0 : a0.id = aid)
    (hruns : dictGet? aid s1.activity_runs = some [])
    (hart : ∀ d, d < 9 → dictMem (freshId (s1.counter + d)) s1.artifacts = false) :
    ∃ a R,
      (simulate_tail s1 scan1 aid pn (some 1)).activities = base ++ [a] ∧
      a.id = aid ∧ a.status = "cancelled" ∧ a.conclusion = some "cancelled" ∧
      dictGet? aid (simulate_tail s1 scan1 aid pn (some 1)).activity_runs =
        some R ∧
      R.map (fun r => r.jobName) = ["recon"] ∧
      (∀ r ∈ R, r.status = "completed" ∧ r.conclusion = some "success") ∧
      (simulate_tail s1 scan1 aid pn (some 1)).findings = s1.findings ∧
      (simulate_tail s1 scan1 aid pn (some 1)).artifacts.length =
        s1.artifacts.length + 1 ∧
      dictGet? scan1.id (simulate_tail s1 scan1 aid pn (some 1)).scans =
        some (scanAtStage scan1 "stopped" 20 2 0) := by
  have hupdB : ∀ (f : Activity → Activity) (x : Activity),
      updateFirst (fun a => a.id == aid) f (base ++ [x]) =
        base ++ [if x.id == aid then f x else x] :=
    fun f x => updateFirst_append_last _ f _ x hbase
  have hfindB : ∀ x : Activity,
      List.find? (fun a => a.id == aid) (base ++ [x]) =
        if x.id == aid then some x else none :=
    fun x => find?_append_last _ _ x hbase
  obtain ⟨hA, hB, hC, hD, hE, ⟨c1, c2, hF⟩, ⟨art1, hG⟩, hH, hI⟩ :=
    stageBody_recon s1 scan1 aid pn base a0 [] hact hbase ha0 hruns (by simp)
  simp only [List.nil_append] at hF
  have hlen1 : (dictSet (freshId (s1.counter + 1)) art1 s1.artifacts).length =
      s1.artifacts.length + 1 :=
    length_dictSet_not_mem _ _ _ (hart 1 (by omega))
  simp [simulate_tail, stages, stageLoop_cons, stageLoop_nil, hstat,
    hA, hE, hF, hG, hC, hD, hupdB, hfindB, ha0, hlen1,
    applyStatusUpdate_cancelled, update_activity_status, log_activity, emit,
    setScan, scanAtStage_status, scanAtStage_id, scanAtStage_scanAtStage,
    dictGet?_dictSet_self, completedRun]
  simp [scanAtStage]

set_option maxHeartbeats 4000000 in
/-- Effect of `simulate_tail` when the stop request is observable at the
third boundary check: only recon and analysis execute, no finding is
appended, and the activity is cancelled. -/
theorem simulate_tail_stop2 (s1 : ServerState) (scan1 : Scan) (aid pn : String)
    (base : List Activity) (a0 : Activity)
    (hstat : (scan1.status == "stopped") = false)
    (hact : s1.activities = base ++ [a0])
    (hbase : ∀ x ∈ base, (x.id == aid) = false)
    (ha0 : a0.id = aid)
    (hruns : dictGet? aid s1.activity_runs = some [])
    (hart : ∀ d, d < 9 → dictMem (freshId (s1.counter + d)) s1.artifacts = false) :
    ∃ a R,
      (simulate_tail s1 scan1 aid pn (some 2)).activities = base ++ [a] ∧
      a.id = aid ∧ a.status = "cancelled" ∧ a.conclusion = some "cancelled" ∧
      dictGet? aid (simulate_tail s1 scan1 aid pn (some 2)).activity_runs =
        some R ∧
      R.map (fun r => r.jobName) = ["recon", "analysis"] ∧
      (∀ r ∈ R, r.status = "completed" ∧ r.conclusion = some "success") ∧
      (simulate_tail s1 scan1 aid pn (some 2)).findings = s1.findings ∧
      (simulate_tail s1 scan1 aid pn (some 2)).artifacts.length =
        s1.artifacts.length + 1 ∧
      dictGet? scan1.id (simulate_tail s1 scan1 aid pn (some 2)).scans =
        some (scanAtStage scan1 "stopped" 40 4 0) := by
  have hupdB : ∀ (f : Activity → Activity) (x : Activity),
      updateFirst (fun a => a.id == aid) f (base ++ [x]) =
        base ++ [if x.id == aid then f x else x] :=
    fun f x => updateFirst_append_last _ f _ x hbase
  have hfindB : ∀ x : Activity,
      List.find? (fun a => a.id == aid) (base ++ [x]) =
        if x.id == aid then some x else none :=
    fun x => find?_append_last _ _ x hbase
  obtain ⟨hA, hB, hC, hD, hE, ⟨c1, c2, hF⟩, ⟨art1, hG⟩, hH, hI⟩ :=
    stageBody_recon s1 scan1 aid pn base a0 [] hact hbase ha0 hruns (by simp)
  simp only [List.nil_append] at hF
  have hL1gen : ∀ n, n = s1.counter + 2 →
      ∀ r ∈ [completedRun aid "recon" (some "Asset Discovery")
        (freshId s1.counter) c1 c2],
      (r.id == freshId n) = false := by
    rintro n rfl r hr
    simp only [List.mem_singleton] at hr
    subst hr
    simp only [completedRun, freshId_beq_eq, beq_eq_false_iff_ne]
    omega
  obtain ⟨hA2, hB2, hC2, hD2, hE2, ⟨c3, c4, hF2⟩, hG2, hH2, hI2⟩ :=
    stageBody_analysis (stageBody s1 scan1 aid pn stageRecon).1
      (scanAtStage scan1 "scanning" 20 2 0) aid pn base _ _ hE hbase
      (by simp [ha0]) hF (hL1gen _ hI)
  rw [hI] at hF2 hI2
  simp only [List.singleton_append] at hF2
  have hlen1 : (dictSet (freshId (s1.counter + 1)) art1 s1.artifacts).length =
      s1.artifacts.length + 1 :=
    length_dictSet_not_mem _ _ _ (hart 1 (by omega))
  simp [simulate_tail, stages, stageLoop_cons, stageLoop_nil, hstat,
    hA, hA2, hE2, hF2, hG2, hG, hC, hC2, hD2, hupdB, hfindB, ha0, hlen1,
    applyStatusUpdate_cancelled, update_activity_status, log_activity, emit,
    setScan, scanAtStage_status, scanAtStage_id, scanAtStage_scanAtStage,
    dictGet?_dictSet_self, completedRun]
  simp [scanAtStage]

set_option maxHeartbeats 8000000 in
/-- Effect of `simulate_tail` when the stop request is observable at the
fourth boundary check: recon, analysis and exploitation execute (so the
synthetic finding is appended), reporting and completion never run, and
the activity is cancelled. -/
theorem simulate_tail_stop3 (s1 : ServerState) (scan1 : Scan) (aid pn : String)
    (base : List Activity) (a0 : Activity)
    (hstat : (scan1.status == "stopped") = false)
    (hact : s1.activities = base ++ [a0])
    (hbase : ∀ x ∈ base, (x.id == aid) = false)
    (ha0 : a0.id = aid)
    (hruns : dictGet? aid s1.activity_runs = some [])
    (hart : ∀ d, d < 9 → dictMem (freshId (s1.counter + d)) s1.artifacts = false) :
    ∃ a R ts,
      (simulate_tail s1 scan1 aid pn (some 3)).activities = base ++ [a] ∧
      a.id = aid ∧ a.status = "cancelled" ∧ a.conclusion = some "cancelled" ∧
      dictGet? aid (simulate_tail s1 scan1 aid pn (some 3)).activity_runs =
        some R ∧
      R.map (fun r => r.jobName) = ["recon", "analysis", "exploitation"] ∧
      (∀ r ∈ R, r.status = "completed" ∧ r.conclusion = some "success") ∧
      (simulate_tail s1 scan1 aid pn (some 3)).findings =
        s1.findings ++ [xssFinding s1.findings.length scan1.programId aid ts] ∧
      (simulate_tail s1 scan1 aid pn (some 3)).artifacts.length =
        s1.artifacts.length + 3 ∧
      dictGet? scan1.id (simulate_tail s1 scan1 aid pn (some 3)).scans =
        some (scanAtStage scan1 "stopped" 70 7 2) := by
  have hupdB : ∀ (f : Activity → Activity) (x : Activity),
      updateFirst (fun a => a.id == aid) f (base ++ [x]) =
        base ++ [if x.id == aid then f x else x] :=
    fun f x => updateFirst_append_last _ f _ x hbase
  have hfindB : ∀ x : Activity,
      List.find? (fun a => a.id == aid) (base ++ [x]) =
        if x.id == aid then some x else none :=
    fun x => find?_append_last _ _ x hbase
  obtain ⟨hA, hB, hC, hD, hE, ⟨c1, c2, hF⟩, ⟨art1, hG⟩, hH, hI⟩ :=
    stageBody_recon s1 scan1 aid pn base a0 [] hact hbase ha0 hruns (by simp)
  simp only [List.nil_append] at hF
  have hL1gen : ∀ n, n = s1.counter + 2 →
      ∀ r ∈ [completedRun aid "recon" (some "Asset Discovery")
        (freshId s1.counter) c1 c2],
      (r.id == freshId n) = false := by
    rintro n rfl r hr
    simp only [List.mem_singleton] at hr
    subst hr
    simp only [completedRun, freshId_beq_eq, beq_eq_false_iff_ne]
    omega
  obtain ⟨hA2, hB2, hC2, hD2, hE2, ⟨c3, c4, hF2⟩, hG2, hH2, hI2⟩ :=
    stageBody_analysis (stageBody s1 scan1 aid pn stageRecon).1
      (scanAtStage scan1 "scanning" 20 2 0) aid pn base _ _ hE hbase
      (by simp [ha0]) hF (hL1gen _ hI)
  rw [hI] at hF2 hI2
  simp only [List.singleton_append] at hF2
  have hL2gen : ∀ n, n = s1.counter + 2 + 1 →
      ∀ r ∈ [completedRun aid "recon" (some "Asset Discovery")
        (freshId s1.counter) c1 c2,
      completedRun aid "analysis" (some "Vulnerability Analysis")
        (freshId (s1.counter + 2)) c3 c4],
      (r.id == freshId n) = false := by
    rintro n rfl r hr
    simp only [List.mem_cons, List.not_mem_nil, or_false] at hr
    rcases hr with hr | hr <;>
      (subst hr; simp only [completedRun, freshId_beq_eq, beq_eq_false_iff_ne]; omega)
  obtain ⟨hA3, hB3, ⟨ts, hC3, hH3⟩, hD3, hE3, ⟨c5, c6, hF3⟩, ⟨ar1, ar2, hG3⟩, hI3⟩ :=
    stageBody_exploitation _ (scanAtStage scan1 "analyzing" 40 4 0) aid pn base _ _
      hE2 hbase (by simp [ha0]) hF2 (hL2gen _ hI2)
  rw [hI2] at hF3 hG3
  simp only [List.append_assoc, List.singleton_append, List.cons_append,
    List.nil_append] at hF3
  have m1 : dictMem (freshId (s1.counter + 1)) s1.artifacts = false :=
    hart 1 (by omega)
  have m2 : dictMem (freshId (s1.counter + 4))
      (dictSet (freshId (s1.counter + 1)) art1 s1.artifacts) = false := by
    rw [dictMem_dictSet_of_ne _ _ _ _ (freshId_ne_of_ne (by omega))]
    exact hart 4 (by omega)
  have m3 : dictMem (freshId (s1.counter + 5))
      (dictSet (freshId (s1.counter + 4)) ar1
        (dictSet (freshId (s1.counter + 1)) art1 s1.artifacts)) = false := by
    rw [dictMem_dictSet_of_ne _ _ _ _ (freshId_ne_of_ne (by omega)),
      dictMem_dictSet_of_ne _ _ _ _ (freshId_ne_of_ne (by omega))]
    exact hart 5 (by omega)
  have hlen3 : (dictSet (freshId (s1.counter + 5)) ar2
      (dictSet (freshId (s1.counter + 4)) ar1
        (dictSet (freshId (s1.counter + 1)) art1 s1.artifacts))).length =
      s1.artifacts.length + 3 := by
    rw [length_dictSet_not_mem _ _ _ m3, length_dictSet_not_mem _ _ _ m2,
      length_dictSet_not_mem _ _ _ m1]
  simp [simulate_tail, stages, stageLoop_cons, stageLoop_nil, hstat,
    hA, hA2, hA3, hE3, hF3, hG3, hG2, hG, hC, hC2, hC3, hD3, hupdB, hfindB, ha0,
    hlen3, applyStatusUpdate_cancelled, update_activity_status, log_activity, emit,
    setScan, scanAtStage_status, scanAtStage_id, scanAtStage_programId,
    scanAtStage_scanAtStage, dictGet?_dictSet_self, completedRun]
  simp [scanAtStage]

set_option maxHeartbeats 8000000 in
/-- Effect of `simulate_tail` when the stop request is observable at the
fifth boundary check: all stages but completion execute, and the activity
is cancelled. -/
theorem simulate_tail_stop4 (s1 : ServerState) (scan1 : Scan) (aid pn : String)
    (base : List Activity) (a0 : Activity)
    (hstat : (scan1.status == "stopped") = false)
    (hact : s1.activities = base ++ [a0])
    (hbase : ∀ x ∈ base, (x.id == aid) = false)
    (ha0 : a0.id = aid)
    (hruns : dictGet? aid s1.activity_runs = some [])
    (hart : ∀ d, d < 9 → dictMem (freshId (s1.counter + d)) s1.artifacts = false) :
    ∃ a R ts,
      (simulate_tail s1 scan1 aid pn (some 4)).activities = base ++ [a] ∧
      a.id = aid ∧ a.status = "cancelled" ∧ a.conclusion = some "cancelled" ∧
      dictGet? aid (simulate_tail s1 scan1 aid pn (some 4)).activity_runs =
        some R ∧
      R.map (fun r => r.jobName) = ["recon", "analysis", "exploitation", "reporting"] ∧
      (∀ r ∈ R, r.status = "completed" ∧ r.conclusion = some "success") ∧
      (simulate_tail s1 scan1 aid pn (some 4)).findings =
        s1.findings ++ [xssFinding s1.findings.length scan1.programId aid ts] ∧
      (simulate_tail s1 scan1 aid pn (some 4)).artifacts.length =
        s1.artifacts.length + 4 ∧
      dictGet? scan1.id (simulate_tail s1 scan1 aid pn (some 4)).scans =
        some (scanAtStage scan1 "stopped" 90 9 3) := by
  have hupdB : ∀ (f : Activity → Activity) (x : Activity),
      updateFirst (fun a => a.id == aid) f (base ++ [x]) =
        base ++ [if x.id == aid then f x else x] :=
    fun f x => updateFirst_append_last _ f _ x hbase
  have hfindB : ∀ x : Activity,
      List.find? (fun a => a.id == aid) (base ++ [x]) =
        if x.id == aid then some x else none :=
    fun x => find?_append_last _ _ x hbase
  obtain ⟨hA, hB, hC, hD, hE, ⟨c1, c2, hF⟩, ⟨art1, hG⟩, hH, hI⟩ :=
    stageBody_recon s1 scan1 aid pn base a0 [] hact hbase ha0 hruns (by simp)
  simp only [List.nil_append] at hF
  have hL1gen : ∀ n, n = s1.counter + 2 →
      ∀ r ∈ [completedRun aid "recon" (some "Asset Discovery")
        (freshId s1.counter) c1 c2],
      (r.id == freshId n) = false := by
    rintro n rfl r hr
    simp only [List.mem_singleton] at hr
    subst hr
    simp only [completedRun, freshId_beq_eq, beq_eq_false_iff_ne]
    omega
  obtain ⟨hA2, hB2, hC2, hD2, hE2, ⟨c3, c4, hF2⟩, hG2, hH2, hI2⟩ :=
    stageBody_analysis (stageBody s1 scan1 aid pn stageRecon).1
      (scanAtStage scan1 "scanning" 20 2 0) aid pn base _ _ hE hbase
      (by simp [ha0]) hF (hL1gen _ hI)
  rw [hI] at hF2 hI2
  simp only [List.singleton_append] at hF2
  have hL2gen : ∀ n, n = s1.counter + 2 + 1 →
      ∀ r ∈ [completedRun aid "recon" (some "Asset Discovery")
        (freshId s1.counter) c1 c2,
      completedRun aid "analysis" (some "Vulnerability Analysis")
        (freshId (s1.counter + 2)) c3 c4],
      (r.id == freshId n) = false := by
    rintro n rfl r hr
    simp only [List.mem_cons, List.not_mem_nil, or_false] at hr
    rcases hr with hr | hr <;>
      (subst hr; simp only [completedRun, freshId_beq_eq, beq_eq_false_iff_ne]; omega)
  obtain ⟨hA3, hB3, ⟨ts, hC3, hH3⟩, hD3, hE3, ⟨c5, c6, hF3⟩, ⟨ar1, ar2, hG3⟩, hI3⟩ :=
    stageBody_exploitation _ (scanAtStage scan1 "analyzing" 40 4 0) aid pn base _ _
      hE2 hbase (by simp [ha0]) hF2 (hL2gen _ hI2)
  rw [hI2] at hF3 hG3
  simp only [List.append_assoc, List.singleton_append, List.cons_append,
    List.nil_append] at hF3
  have m1 : dictMem (freshId (s1.counter + 1)) s1.artifacts = false :=
    hart 1 (by omega)
  have m2 : dictMem (freshId (s1.counter + 4))
      (dictSet (freshId (s1.counter + 1)) art1 s1.artifacts) = false := by
    rw [dictMem_dictSet_of_ne _ _ _ _ (freshId_ne_of_ne (by omega))]
    exact hart 4 (by omega)
  have m3 : dictMem (freshId (s1.counter + 5))
      (dictSet (freshId (s1.counter + 4)) ar1
        (dictSet (freshId (s1.counter + 1)) art1 s1.artifacts)) = false := by
    rw [dictMem_dictSet_of_ne _ _ _ _ (freshId_ne_of_ne (by omega)),
      dictMem_dictSet_of_ne _ _ _ _ (freshId_ne_of_ne (by omega))]
    exact hart 5 (by omega)
  have hlen3 : (dictSet (freshId (s1.counter + 5)) ar2
      (dictSet (freshId (s1.counter + 4)) ar1
        (dictSet (freshId (s1.counter + 1)) art1 s1.artifacts))).length =
      s1.artifacts.length + 3 := by
    rw [length_dictSet_not_mem _ _ _ m3, length_dictSet_not_mem _ _ _ m2,
      length_dictSet_not_mem _ _ _ m1]
  rw [hI2] at hI3
  have hL3gen : ∀ n, n = s1.counter + 2 + 1 + 3 →
      ∀ r ∈ [completedRun aid "recon" (some "Asset Discovery")
        (freshId s1.counter) c1 c2,
      completedRun aid "analysis" (some "Vulnerability Analysis")
        (freshId (s1.counter + 2)) c3 c4,
      completedRun aid "exploitation" (some "Exploit Testing")
        (freshId (s1.counter + 2 + 1)) c5 c6],
      (r.id == freshId n) = false := by
    rintro n rfl r hr
    simp only [List.mem_cons, List.not_mem_nil, or_false] at hr
    rcases hr with hr | hr | hr <;>
      (subst hr; simp only [completedRun, freshId_beq_eq, beq_eq_false_iff_ne]; omega)
  obtain ⟨hA4, hB4, hC4, hD4, hE4, ⟨c7, c8, hF4⟩, ⟨ar3, hG4⟩, hH4, hI4⟩ :=
    stageBody_reporting _ (scanAtStage scan1 "exploiting" 70 7 2) aid pn base _ _
      hE3 hbase (by simp [ha0]) hF3 (hL3gen _ hI3)
  rw [hI3] at hF4 hG4
  simp only [List.append_assoc, List.singleton_append, List.cons_append,
    List.nil_append] at hF4
  have m4 : dictMem (freshId (s1.counter + 7))
      (dictSet (freshId (s1.counter + 5)) ar2
        (dictSet (freshId (s1.counter + 4)) ar1
          (dictSet (freshId (s1.counter + 1)) art1 s1.artifacts))) = false := by
    rw [dictMem_dictSet_of_ne _ _ _ _ (freshId_ne_of_ne (by omega)),
      dictMem_dictSet_of_ne _ _ _ _ (freshId_ne_of_ne (by omega)),
      dictMem_dictSet_of_ne _ _ _ _ (freshId_ne_of_ne (by omega))]
    exact hart 7 (by omega)
  have hlen4 : (dictSet (freshId (s1.counter + 7)) ar3
      (dictSet (freshId (s1.counter + 5)) ar2
        (dictSet (freshId (s1.counter + 4)) ar1
          (dictSet (freshId (s1.counter + 1)) art1 s1.artifacts)))).length =
      s1.artifacts.length + 4 := by
    rw [length_dictSet_not_mem _ _ _ m4, length_dictSet_not_mem _ _ _ m3,
      length_dictSet_not_mem _ _ _ m2, length_dictSet_not_mem _ _ _ m1]
  simp [simulate_tail, stages, stageLoop_cons, stageLoop_nil, hstat,
    hA, hA2, hA3, hA4, hE4, hF4, hG4, hG3, hG2, hG, hC, hC2, hC3, hC4, hD4,
    hupdB, hfindB, ha0, hlen4,
    applyStatusUpdate_cancelled, update_activity_status, log_activity, emit,
    setScan, scanAtStage_status, scanAtStage_id, scanAtStage_programId,
    scanAtStage_scanAtStage, dictGet?_dictSet_self, completedRun]
  simp [scanAtStage]

set_option maxHeartbeats 8000000 in
/-- Effect of `simulate_tail` when the stop request lands during the final
stage's sleep (observable only at the post-loop check): all five stages
complete, the scan ends `stopped` at progress 100, the final snapshots are
still published, but the activity is never moved to a terminal status. -/
theorem simulate_tail_stop5 (s1 : ServerState) (scan1 : Scan) (aid pn : String)
    (base : List Activity) (a0 : Activity)
    (hstat : (scan1.status == "stopped") = false)
    (hact : s1.activities = base ++ [a0])
    (hbase : ∀ x ∈ base, (x.id == aid) = false)
    (ha0 : a0.id = aid)
    (ha0st : a0.status = "in_progress")
    (ha0e : a0.endTime = none)
    (ha0d : a0.duration = none)
    (ha0c : a0.conclusion = none)
    (hruns : dictGet? aid s1.activity_runs = some []) :
    ∃ a R ts,
      (simulate_tail s1 scan1 aid pn (some 5)).activities = base ++ [a] ∧
      a.id = aid ∧ a.status = "in_progress" ∧
      a.endTime = none ∧ a.duration = none ∧ a.conclusion = none ∧
      dictGet? aid (simulate_tail s1 scan1 aid pn (some 5)).activity_runs =
        some R ∧
      R.map (fun r => r.jobName) =
        ["recon", "analysis", "exploitation", "reporting", "completion"] ∧
      (∀ r ∈ R, r.status = "completed" ∧ r.conclusion = some "success") ∧
      (simulate_tail s1 scan1 aid pn (some 5)).findings =
        s1.findings ++ [xssFinding s1.findings.length scan1.programId aid ts] ∧
      dictGet? scan1.id (simulate_tail s1 scan1 aid pn (some 5)).scans =
        some (scanAtStage scan1 "stopped" 100 10 3) ∧
      (simulate_tail s1 scan1 aid pn (some 5)).events = s1.events ++
        [Event.scan_update (scanAtStage scan1 "scanning" 20 2 0),
         Event.scan_update (scanAtStage scan1 "analyzing" 40 4 0),
         Event.scan_update (scanAtStage scan1 "exploiting" 70 7 2),
         Event.new_finding (xssFinding s1.findings.length scan1.programId aid ts),
         Event.scan_update (scanAtStage scan1 "reporting" 90 9 3),
         Event.scan_update (scanAtStage scan1 "completed" 100 10 3),
         Event.scan_update (scanAtStage scan1 "stopped" 100 10 3),
         Event.activity_updated a] := by
  have hupdB : ∀ (f : Activity → Activity) (x : Activity),
      updateFirst (fun a => a.id == aid) f (base ++ [x]) =
        base ++ [if x.id == aid then f x else x] :=
    fun f x => updateFirst_append_last _ f _ x hbase
  have hfindB : ∀ x : Activity,
      List.find? (fun a => a.id == aid) (base ++ [x]) =
        if x.id == aid then some x else none :=
    fun x => find?_append_last _ _ x hbase
  -- stage 1: recon
  obtain ⟨hA, hB, hC, hD, hE, ⟨c1, c2, hF⟩, ⟨art1, hG⟩, hH, hI⟩ :=
    stageBody_recon s1 scan1 aid pn base a0 [] hact hbase ha0 hruns (by simp)
  simp only [List.nil_append] at hF
  have hL1gen : ∀ n, n = s1.counter + 2 →
      ∀ r ∈ [completedRun aid "recon" (some "Asset Discovery")
        (freshId s1.counter) c1 c2],
      (r.id == freshId n) = false := by
    rintro n rfl r hr
    simp only [List.mem_singleton] at hr
    subst hr
    simp only [completedRun, freshId_beq_eq, beq_eq_false_iff_ne]
    omega
  -- stage 2: analysis
  obtain ⟨hA2, hB2, hC2, hD2, hE2, ⟨c3, c4, hF2⟩, hG2, hH2, hI2⟩ :=
    stageBody_analysis (stageBody s1 scan1 aid pn stageRecon).1
      (scanAtStage scan1 "scanning" 20 2 0) aid pn base _ _ hE hbase
      (by simp [ha0]) hF (hL1gen _ hI)
  rw [hI] at hF2 hI2
  simp only [List.singleton_append] at hF2
  have hL2gen : ∀ n, n = s1.counter + 2 + 1 →
      ∀ r ∈ [completedRun aid "recon" (some "Asset Discovery")
        (freshId s1.counter) c1 c2,
      completedRun aid "analysis" (some "Vulnerability Analysis")
        (freshId (s1.counter + 2)) c3 c4],
      (r.id == freshId n) = false := by
    rintro n rfl r hr
    simp only [List.mem_cons, List.not_mem_nil, or_false] at hr
    rcases hr with hr | hr <;>
      (subst hr; simp only [completedRun, freshId_beq_eq, beq_eq_false_iff_ne]; omega)
  -- stage 3: exploitation
  obtain ⟨hA3, hB3, ⟨ts, hC3, hH3⟩, hD3, hE3, ⟨c5, c6, hF3⟩, ⟨ar1, ar2, hG3⟩, hI3⟩ :=
    stageBody_exploitation _ (scanAtStage scan1 "analyzing" 40 4 0) aid pn base _ _
      hE2 hbase (by simp [ha0]) hF2 (hL2gen _ hI2)
  rw [hI2] at hF3 hI3
  simp only [List.append_assoc, List.singleton_append, List.cons_append,
    List.nil_append] at hF3
  have hL3gen : ∀ n, n = s1.counter + 2 + 1 + 3 →
      ∀ r ∈ [completedRun aid "recon" (some "Asset Discovery")
        (freshId s1.counter) c1 c2,
      completedRun aid "analysis" (some "Vulnerability Analysis")
        (freshId (s1.counter + 2)) c3 c4,
      completedRun aid "exploitation" (some "Exploit Testing")
        (freshId (s1.counter + 2 + 1)) c5 c6],
      (r.id == freshId n) = false := by
    rintro n rfl r hr
    simp only [List.mem_cons, List.not_mem_nil, or_false] at hr
    rcases hr with hr | hr | hr <;>
      (subst hr; simp only [completedRun, freshId_beq_eq, beq_eq_false_iff_ne]; omega)
  -- stage 4: reporting
  obtain ⟨hA4, hB4, hC4, hD4, hE4, ⟨c7, c8, hF4⟩, ⟨ar3, hG4⟩, hH4, hI4⟩ :=
    stageBody_reporting _ (scanAtStage scan1 "exploiting" 70 7 2) aid pn base _ _
      hE3 hbase (by simp [ha0]) hF3 (hL3gen _ hI3)
  rw [hI3] at hF4 hI4
  simp only [List.append_assoc, List.singleton_append, List.cons_append,
    List.nil_append] at hF4
  have hL4gen : ∀ n, n = s1.counter + 2 + 1 + 3 + 2 →
      ∀ r ∈ [completedRun aid "recon" (some "Asset Discovery")
        (freshId s1.counter) c1 c2,
      completedRun aid "analysis" (some "Vulnerability Analysis")
        (freshId (s1.counter + 2)) c3 c4,
      completedRun aid "exploitation" (some "Exploit Testing")
        (freshId (s1.counter + 2 + 1)) c5 c6,
      completedRun aid "reporting" (some "Report Generation")
        (freshId (s1.counter + 2 + 1 + 3)) c7 c8],
      (r.id == freshId n) = false := by
    rintro n rfl r hr
    simp only [List.mem_cons, List.not_mem_nil, or_false] at hr
    rcases hr with hr | hr | hr | hr <;>
      (subst hr; simp only [completedRun, freshId_beq_eq, beq_eq_false_iff_ne]; omega)
  -- stage 5: completion
  obtain ⟨hA5, hB5, hC5, hD5, hE5, ⟨c9, c10, hF5⟩, hG5, hH5, hI5⟩ :=
    stageBody_completion _ (scanAtStage scan1 "reporting" 90 9 3)
      aid pn base _ _ hE4 hbase (by simp [ha0]) hF4 (hL4gen _ hI4)
  rw [hI4] at hF5
  simp only [List.append_assoc, List.singleton_append, List.cons_append,
    List.nil_append] at hF5
  simp [simulate_tail, stages, stageLoop_cons, stageLoop_nil, hstat,
    hA, hA2, hA3, hA4, hA5, hE5, hF5, hH, hH2, hH3, hH4, hH5,
    hC, hC2, hC3, hC4, hC5, hD5, hG, hG2, hG3, hG4, hG5,
    hfindB, ha0, ha0st, ha0e, ha0d, ha0c,
    update_activity_status, log_activity, emit, setScan,
    scanAtStage_status, scanAtStage_id, scanAtStage_programId,
    scanAtStage_scanAtStage, dictGet?_dictSet_self, completedRun]
  simp [scanAtStage]

/-- The derived-counter relation of main.py:281-282: the scan's counters
are the stated functions of its progress. -/
def scanCountersConsistent (x : Scan) : Prop :=
  x.assetsFound = min (Int.fdiv x.progress 10) 15 ∧
  x.vulnerabilitiesFound = max 0 (Int.fdiv (x.progress - 30) 20)

theorem stageBody_snd (s : ServerState) (scan : Scan) (aid pn : String)
    (st : StageDesc) :
    (stageBody s scan aid pn st).2 =
      { scan with status := st.scanStatus, progress := st.progress,
                  assetsFound := min (Int.fdiv st.progress 10) 15,
                  vulnerabilitiesFound := max 0 (Int.fdiv (st.progress - 30) 20) } :=
  rfl

theorem scanCountersConsistent_stageBody (s : ServerState) (scan : Scan)
    (aid pn : String) (st : StageDesc) :
    scanCountersConsistent (stageBody s scan aid pn st).2 := by
  rw [stageBody_snd]
  exact ⟨rfl, rfl⟩

theorem scanCountersConsistent_stopped (x : Scan) (h : scanCountersConsistent x) :
    scanCountersConsistent { x with status := "stopped" } := h

set_option maxHeartbeats 1000000 in
theorem stageBody_events_mem (s : ServerState) (scan : Scan) (aid pn : String)
    (st : StageDesc) (x : Scan)
    (h : Event.scan_update x ∈ (stageBody s scan aid pn st).1.events) :
    Event.scan_update x ∈ s.events ∨ x = (stageBody s scan aid pn st).2 := by
  rw [stageBody_snd]
  by_cases c5 : (0:Int) < max 0 (Int.fdiv (st.progress - 30) 20)
  · simp only [stageBody, create_activity_run, log_activity, add_artifact, emit,
      setScan, apply_ite ServerState.events, ite_self, c5, if_true] at h
    (first
      | split_ifs at h
      | skip) <;>
      (simp only [List.mem_append, List.mem_cons, List.not_mem_nil, or_false,
         Event.scan_update.injEq, reduceCtorEq, false_or] at h
       exact h)
  · simp only [stageBody, create_activity_run, log_activity, add_artifact, emit,
      setScan, apply_ite ServerState.events, ite_self, c5, if_false] at h
    (first
      | split_ifs at h
      | skip) <;>
      (simp only [List.mem_append, List.mem_cons, List.not_mem_nil, or_false,
         Event.scan_update.injEq, reduceCtorEq, false_or] at h
       exact h)

theorem stageLoop_scan_inv (aid pn : String) (sb : Option Nat) :
    ∀ (rest : List StageDesc) (s : ServerState) (scan : Scan) (i : Nat),
      scanCountersConsistent scan →
      scanCountersConsistent (stageLoop aid pn sb s scan i rest).2 ∧
      (∀ x, Event.scan_update x ∈ (stageLoop aid pn sb s scan i rest).1.events →
        Event.scan_update x ∈ s.events ∨ scanCountersConsistent x) := by
  intro rest
  induction rest with
  | nil =>
    intro s scan i hc
    rw [stageLoop_nil]
    exact ⟨hc, fun x hx => Or.inl hx⟩
  | cons st rest ih =>
    intro s scan i hc
    rw [stageLoop_cons]
    by_cases hsb : (sb == some i) = true
    · simp only [hsb, if_true]
      have hstop : ((({ scan with status := "stopped" } : Scan)).status ==
          "stopped") = true := by simp
      simp only [hstop, if_true]
      refine ⟨scanCountersConsistent_stopped scan hc, fun x hx => Or.inl ?_⟩
      simpa [update_activity_status, log_activity, setScan] using hx
    · have hsb2 : (sb == some i) = false := by
        cases hv : (sb == some i)
        · rfl
        · exact absurd hv hsb
      simp only [hsb2, Bool.false_eq_true, if_false]
      by_cases hstop : (scan.status == "stopped") = true
      · simp only [hstop, if_true]
        refine ⟨hc, fun x hx => Or.inl ?_⟩
        simpa [update_activity_status, log_activity] using hx
      · have hstop2 : (scan.status == "stopped") = false := by
          cases hv : (scan.status == "stopped")
          · rfl
          · exact absurd hv hstop
        simp only [hstop2, Bool.false_eq_true, if_false]
        obtain ⟨ihc, ihm⟩ := ih (stageBody s scan aid pn st).1
          (stageBody s scan aid pn st).2 (i + 1)
          (scanCountersConsistent_stageBody s scan aid pn st)
        refine ⟨ihc, fun x hx => ?_⟩
        rcases ihm x hx with hx2 | hx2
        · rcases stageBody_events_mem s scan aid pn st x hx2 with hx3 | hx3
          · exact Or.inl hx3
          · refine Or.inr ?_
            rw [hx3]
            exact scanCountersConsistent_stageBody s scan aid pn st
        · exact Or.inr hx2

theorem simulate_tail_scan_inv (s1 : ServerState) (scan1 : Scan) (aid pn : String)
    (sb : Option Nat) (h1 : scanCountersConsistent scan1) :
    ∀ x, Event.scan_update x ∈ (simulate_tail s1 scan1 aid pn sb).events →
      Event.scan_update x ∈ s1.events ∨ scanCountersConsistent x := by
  intro x hx
  obtain ⟨hloopc, hloopm⟩ := stageLoop_scan_inv aid pn sb stages s1 scan1 0 h1
  have hscanF : scanCountersConsistent
      (if sb == some 5 then
        { (stageLoop aid pn sb s1 scan1 0 stages).2 with status := "stopped" }
      else (stageLoop aid pn sb s1 scan1 0 stages).2) := by
    by_cases h5 : (sb == some 5) = true
    · simp only [h5, if_true]
      exact scanCountersConsistent_stopped _ hloopc
    · have h52 : (sb == some 5) = false := by
        cases hv : (sb == some 5)
        · rfl
        · exact absurd hv h5
      simp only [h52, Bool.false_eq_true, if_false]
      exact hloopc
  simp only [simulate_tail, apply_ite ServerState.events, ite_self,
    update_activity_status, log_activity, emit, setScan] at hx
  split at hx
  · simp only [apply_ite ServerState.events, ite_self, List.mem_append,
      List.mem_cons, List.not_mem_nil, or_false, Event.scan_update.injEq,
      reduceCtorEq, false_or] at hx
    rcases hx with hx | hx
    · exact hloopm x hx
    · right
      rw [hx]
      exact hscanF
  · simp only [apply_ite ServerState.events, ite_self, List.mem_append,
      List.mem_cons, List.not_mem_nil, or_false, Event.scan_update.injEq,
      reduceCtorEq, false_or] at hx
    rcases hx with hx | hx
    · exact hloopm x hx
    · right
      rw [hx]
      exact hscanF

/-- Freshness of the identifiers the fresh-id source will draw next: the
next `k` draws collide with no stored activity id and no stored artifact
key.  Holds for every state actually produced by the operations, since
draws only move the counter forward. -/
def idsFreshFrom (s : ServerState) (k : Nat) : Prop :=
  ∀ d, d < k →
    (s.activities.all (fun a => !(a.id == freshId (s.counter + d))) = true) ∧
    (dictMem (freshId (s.counter + d)) s.artifacts = false)

instance (s : ServerState) (k : Nat) : Decidable (idsFreshFrom s k) := by
  unfold idsFreshFrom
  infer_instance

/-- The state right after `queue_scan initialState "github"`, used as a
concrete witness state throughout. -/
def githubQueued : ServerState :=
  match queue_scan initialState "github" with
  | Except.ok (_, t) => t
  | Except.error _ => initialState

instance (x : Scan) : Decidable (scanCountersConsistent x) := by
  unfold scanCountersConsistent
  infer_instance

/-- The scan record stored by `githubQueued` under its fresh id. -/
def githubScan : Scan :=
  match dictGet? (freshId 0) githubQueued.scans with
  | some x => x
  | none =>
    { id := "", programId := "", status := "", progress := 0, assetsFound := 0,
      vulnerabilitiesFound := 0, startTime := 0, activityId := none }

/-- A state holding one activity that already has one run: created by
`create_activity` and then `create_activity_run`, mirroring the sequence of
test_activity_tracking.py. -/
def c4state : ServerState :=
  (create_activity_run
    (create_activity initialState "scan" "Test Scan" none "system").2
    (freshId 0) "recon" (some "Asset Discovery")).2

theorem idsFreshFrom_acts (s : ServerState) (h : idsFreshFrom s 10) :
    ∀ x ∈ s.activities, (x.id == freshId s.counter) = false := by
  intro x hx
  have h0 := (h 0 (by omega)).1
  rw [List.all_eq_true] at h0
  simpa using h0 x hx

theorem idsFreshFrom_arts (s : ServerState) (h : idsFreshFrom s 10) (c : Nat)
    (hc : c = s.counter + 1) :
    ∀ d, d < 9 → dictMem (freshId (c + d)) s.artifacts = false := by
  intro d hd
  have he : c + d = s.counter + (d + 1) := by omega
  rw [he]
  exact (h (d + 1) (by omega)).2

/-- C4 (amended): the run count an Activity shows through `listActivities`
is derived at read time — every returned item's `runCount` equals the
length of that activity's actual run list.  (The original claim also
covered the activity-detail lookup, which instead serves the stored,
possibly stale count; see the counterexample.) -/
theorem listActivities_runCount_fresh (s : ServerState)
    (ty st pid : Option String) (limit offset : Int) :
    ∀ x ∈ (get_activities s ty st pid limit offset).1.activities,
      x.runCount = (runsFor s x.id).length := by
  intro x hx
  simp only [get_activities, List.mem_map] at hx
  obtain ⟨a, ha, rfl⟩ := hx
  simp [runsLen, runsFor]

theorem listActivities_runCount_fresh_witness :
    { initActivity "scan" "Test Scan" none "system" (freshId 0) 1
        with runCount := 1 }.runCount =
      (runsFor c4state
        { initActivity "scan" "Test Scan" none "system" (freshId 0) 1
            with runCount := 1 }.id).length :=
  listActivities_runCount_fresh c4state none none none 10 0
    { initActivity "scan" "Test Scan" none "system" (freshId 0) 1
        with runCount := 1 }
    (by decide)

/-- C4 counterexample: after one run is created for a fresh activity, the
activity-detail lookup still reports the stored `runCount` 0 while the
actual run list has length 1 — the detail read is stale, contradicting the
claim that every read operation derives the count at read time. -/
theorem activityDetails_runCount_stale :
    (get_activity_details c4state (freshId 0)).map
      (fun d => (d.activity.runCount, d.runs.length)) = some (0, 1) := by
  decide

theorem length_pySlice_int (l : List α) (start stop : Int)
    (h0 : 0 ≤ start) (hs : start ≤ (l.length : Int)) (h1 : 0 ≤ stop) :
    ((pySlice l start stop).length : Int) =
      max 0 (min stop (l.length : Int) - start) := by
  have hlt : ¬ start < 0 := by omega
  have hlt2 : ¬ stop < 0 := by omega
  simp only [pySlice, hlt, hlt2, if_false, List.length_drop, List.length_take]
  omega

/-- C5: `listActivities` paginates the filtered, sorted list: `total` is
the filtered count before pagination, `hasMore` is exactly
`offset + limit < total`, and for an in-range offset and non-negative
limit the returned page has `min limit (total - offset)` items. -/
theorem listActivities_pagination (s : ServerState)
    (ty st pid : Option String) (limit offset : Int)
    (hoff : 0 ≤ offset)
    (hofle : offset ≤ ((filteredSortedActivities s ty st pid).length : Int))
    (hlim : 0 ≤ limit) :
    (get_activities s ty st pid limit offset).1.total =
      (filteredSortedActivities s ty st pid).length ∧
    (get_activities s ty st pid limit offset).1.hasMore =
      decide (offset + limit <
        ((filteredSortedActivities s ty st pid).length : Int)) ∧
    (((get_activities s ty st pid limit offset).1.activities.length : Int) =
      min limit (((filteredSortedActivities s ty st pid).length : Int) - offset)) := by
  refine ⟨rfl, rfl, ?_⟩
  have hlen : (get_activities s ty st pid limit offset).1.activities.length =
      (pySlice (filteredSortedActivities s ty st pid) offset (offset + limit)).length := by
    simp [get_activities]
  rw [hlen, length_pySlice_int _ _ _ hoff hofle (by omega)]
  omega

theorem listActivities_pagination_witness :
    (get_activities c4state none none none 2 0).1.total =
      (filteredSortedActivities c4state none none none).length ∧
    (get_activities c4state none none none 2 0).1.hasMore =
      decide ((0 + 2 : Int) <
        ((filteredSortedActivities c4state none none none).length : Int)) ∧
    (((get_activities c4state none none none 2 0).1.activities.length : Int) =
      min 2 (((filteredSortedActivities c4state none none none).length : Int) - 0)) :=
  listActivities_pagination c4state none none none 2 0 (by decide)
    (by decide) (by decide)

/-- C6: `listActivities` filtering is conjunctive and exact-match — an
activity appears in the filtered, sorted list iff it is stored and
satisfies every (truthily) supplied filter — the result is sorted by
`startTime` descending, and, within each equal `startTime` value, items
keep their insertion order (stability). -/
theorem listActivities_filter_sort (s : ServerState) (ty st pid : Option String) :
    (∀ x, x ∈ filteredSortedActivities s ty st pid ↔
      (x ∈ s.activities ∧
        (pyTruthyStr ty = true → x.type = ty.getD "") ∧
        (pyTruthyStr st = true → x.status = st.getD "") ∧
        (pyTruthyStr pid = true → x.programId = some (pid.getD "")))) ∧
    (filteredSortedActivities s ty st pid).Pairwise
      (fun x y => y.startTime ≤ x.startTime) ∧
    (∀ k, (filteredSortedActivities s ty st pid).filter
        (fun x => x.startTime == k) =
      (filterActivities ty st pid s.activities).filter
        (fun x => x.startTime == k)) := by
  refine ⟨?_, sortStartTimeDesc_pairwise _, fun k => filter_sortStartTimeDesc k _⟩
  intro x
  rw [filteredSortedActivities, (sortStartTimeDesc_perm _).mem_iff]
  unfold filterActivities
  cases hty : pyTruthyStr ty <;> cases hst : pyTruthyStr st <;>
    cases hpid : pyTruthyStr pid <;>
    (simp [List.mem_filter, and_assoc]; try tauto)

/-- C9: `cancelActivity` errors with NotFound on an unknown id, errors with
InvalidState when the activity's status is neither `queued` nor
`in_progress`, and otherwise transitions the activity to
`cancelled`/`cancelled`, appends an informational log entry, publishes an
activity-updated notification, and leaves every other activity unchanged. -/
theorem cancel_activity_spec (s : ServerState) (aid : String) :
    (s.activities.find? (fun x => x.id == aid) = none →
      cancel_activity s aid =
        Except.error (ApiError.notFound "Activity not found")) ∧
    (∀ a, s.activities.find? (fun x => x.id == aid) = some a →
      a.status ≠ "queued" → a.status ≠ "in_progress" →
      cancel_activity s aid =
        Except.error (ApiError.invalidState "Activity cannot be cancelled")) ∧
    (∀ l₁ l₂ a, s.activities = l₁ ++ a :: l₂ →
      (∀ x ∈ l₁, (x.id == aid) = false) →
      a.id = aid →
      (a.status = "queued" ∨ a.status = "in_progress") →
      ∃ t,
        cancel_activity s aid = Except.ok t ∧
        t.activities = l₁ ++
          applyStatusUpdate a "cancelled" (some "cancelled") s.clock :: l₂ ∧
        (applyStatusUpdate a "cancelled" (some "cancelled") s.clock).status =
          "cancelled" ∧
        (applyStatusUpdate a "cancelled" (some "cancelled") s.clock).conclusion =
          some "cancelled" ∧
        logsFor t aid = logsFor s aid ++
          [{ timestamp := s.clock + 1, level := "info",
             message := "Activity cancelled by user", runId := none }] ∧
        t.events = s.events ++
          [Event.activity_updated
            (applyStatusUpdate a "cancelled" (some "cancelled") s.clock)]) := by
  refine ⟨?_, ?_, ?_⟩
  · intro h
    simp [cancel_activity, h]
  · intro a ha h1 h2
    have hb1 : (a.status == "queued") = false := beq_eq_false_iff_ne.mpr h1
    have hb2 : (a.status == "in_progress") = false := beq_eq_false_iff_ne.mpr h2
    simp [cancel_activity, ha, hb1, hb2]
  · intro l₁ l₂ a hsplit hl₁ haid hqip
    have hpa : (a.id == aid) = true := by simp [haid]
    have hfind : s.activities.find? (fun x => x.id == aid) = some a := by
      rw [hsplit]
      exact find?_of_split _ l₁ l₂ a hl₁ hpa
    have hguard : (a.status == "queued" || a.status == "in_progress") = true := by
      rcases hqip with h | h <;> simp [h]
    have hupd : updateFirst (fun x => x.id == aid)
        (fun x => applyStatusUpdate x "cancelled" (some "cancelled") s.clock)
        s.activities =
        l₁ ++ applyStatusUpdate a "cancelled" (some "cancelled") s.clock :: l₂ := by
      rw [hsplit]
      exact updateFirst_of_split _ _ l₁ l₂ a hl₁ hpa
    have hpa2 : ((applyStatusUpdate a "cancelled" (some "cancelled") s.clock).id ==
        aid) = true := by
      rw [applyStatusUpdate_cancelled]
      simpa using hpa
    have hfind2 : (l₁ ++
        applyStatusUpdate a "cancelled" (some "cancelled") s.clock :: l₂).find?
          (fun x => x.id == aid) =
        some (applyStatusUpdate a "cancelled" (some "cancelled") s.clock) :=
      find?_of_split _ l₁ l₂ _ hl₁ hpa2
    have hT : cancel_activity s aid =
        Except.ok (emit (log_activity (update_activity_status s aid "cancelled"
            (some "cancelled")) aid "info" "Activity cancelled by user" none)
          (Event.activity_updated
            (applyStatusUpdate a "cancelled" (some "cancelled") s.clock))) := by
      simp only [cancel_activity, hfind, hguard, Bool.not_true, Bool.false_eq_true,
        if_false]
      simp [update_activity_status, log_activity, emit, hupd, hfind2]
    refine ⟨_, hT, ?_, ?_, ?_, ?_, ?_⟩
    · simp [emit, log_activity, update_activity_status, hupd]
    · rw [applyStatusUpdate_cancelled]
    · rw [applyStatusUpdate_cancelled]
    · simp [logsFor, emit, log_activity, update_activity_status,
        dictGet?_dictSet_self]
    · simp [emit, log_activity, update_activity_status]

theorem cancel_activity_spec_witness :
    ∃ t,
      cancel_activity c4state (freshId 0) = Except.ok t ∧
      t.activities = [] ++
        applyStatusUpdate (initActivity "scan" "Test Scan" none "system"
            (freshId 0) 1) "cancelled" (some "cancelled") c4state.clock :: [] ∧
      (applyStatusUpdate (initActivity "scan" "Test Scan" none "system"
          (freshId 0) 1) "cancelled" (some "cancelled") c4state.clock).status =
        "cancelled" ∧
      (applyStatusUpdate (initActivity "scan" "Test Scan" none "system"
          (freshId 0) 1) "cancelled" (some "cancelled") c4state.clock).conclusion =
        some "cancelled" ∧
      logsFor t (freshId 0) = logsFor c4state (freshId 0) ++
        [{ timestamp := c4state.clock + 1, level := "info",
           message := "Activity cancelled by user", runId := none }] ∧
      t.events = c4state.events ++
        [Event.activity_updated
          (applyStatusUpdate (initActivity "scan" "Test Scan" none "system"
            (freshId 0) 1) "cancelled" (some "cancelled") c4state.clock)] :=
  (cancel_activity_spec c4state (freshId 0)).2.2 [] []
    (initActivity "scan" "Test Scan" none "system" (freshId 0) 1)
    (by decide) (by simp) (by decide) (Or.inl (by decide))

/-- C1: running the simulation with no stop request against a stored,
non-stopped scan creates exactly five runs for the scan's activity, with
job names recon, analysis, exploitation, reporting, completion in that
order, each ending `completed`/`success`; the activity ends
`completed`/`success` and the scan ends with progress 100. -/
theorem simulate_scan_full_run (s : ServerState) (scan_id : String) (sc : Scan)
    (hsc : dictGet? scan_id s.scans = some sc)
    (hid : sc.id = scan_id)
    (hstop : sc.status ≠ "stopped")
    (hfresh : idsFreshFrom s 10) :
    ∃ t a R,
      simulate_scan s scan_id none = some t ∧
      t.activities = s.activities ++ [a] ∧
      a.status = "completed" ∧ a.conclusion = some "success" ∧
      dictGet? a.id t.activity_runs = some R ∧
      R.map (fun r => r.jobName) =
        ["recon", "analysis", "exploitation", "reporting", "completion"] ∧
      (∀ r ∈ R, r.status = "completed" ∧ r.conclusion = some "success") ∧
      ∃ sc2, dictGet? scan_id t.scans = some sc2 ∧
        sc2.progress = 100 ∧ sc2.status = "completed" := by
  have hbase : ∀ x ∈ s.activities, (x.id == freshId s.counter) = false :=
    idsFreshFrom_acts s hfresh
  obtain ⟨pn, s1, a0, hsim, hacts1, ha0id, ha0st, ha0e, ha0d, ha0c, hruns1,
      hfnd1, hartf1, hev1, hcnt1⟩ :=
    simulate_prologue s scan_id sc hsc hbase
  obtain ⟨a, R, ts, hT1, hTid, hTst, hTc, hTe, hTd, hTruns, hTmap, hTall,
      hTfnd, hTscan⟩ :=
    simulate_tail_nostop s1 { sc with activityId := some (freshId s.counter) }
      (freshId s.counter) pn none s.activities a0
      (fun i _ => rfl)
      (by simp only [beq_eq_false_iff_ne]; exact hstop)
      hacts1 hbase ha0id hruns1
  refine ⟨_, a, R, hsim none, hT1, hTst, hTc, ?_, hTmap, hTall, ?_⟩
  · rw [hTid]
    exact hTruns
  · refine ⟨scanAtStage { sc with activityId := some (freshId s.counter) }
      "completed" 100 10 3, ?_, rfl, rfl⟩
    rw [← hid]
    exact hTscan

theorem simulate_scan_full_run_witness :
    ∃ t a R,
      simulate_scan githubQueued (freshId 0) none = some t ∧
      t.activities = githubQueued.activities ++ [a] ∧
      a.status = "completed" ∧ a.conclusion = some "success" ∧
      dictGet? a.id t.activity_runs = some R ∧
      R.map (fun r => r.jobName) =
        ["recon", "analysis", "exploitation", "reporting", "completion"] ∧
      (∀ r ∈ R, r.status = "completed" ∧ r.conclusion = some "success") ∧
      ∃ sc2, dictGet? (freshId 0) t.scans = some sc2 ∧
        sc2.progress = 100 ∧ sc2.status = "completed" :=
  simulate_scan_full_run githubQueued (freshId 0) githubScan
    (by decide) (by decide) (by decide) (by decide)

/-- C2: a full (non-stopped) simulation appends exactly one finding — the
result's findings list is the input's plus a single new record — created
with type XSS, severity 6.5, status needs_human, payout estimate 5000, the
two fixed evidence strings, and the owning activity's id; the same single
finding is already present when the run is stopped right after the
exploitation stage, and no finding at all exists when the run is stopped
right before the exploitation stage. -/
theorem simulate_scan_one_finding (s : ServerState) (scan_id : String) (sc : Scan)
    (hsc : dictGet? scan_id s.scans = some sc)
    (hstop : sc.status ≠ "stopped")
    (hfresh : idsFreshFrom s 10) :
    (∃ t f,
      simulate_scan s scan_id none = some t ∧
      t.findings = s.findings ++ [f] ∧
      f.type = "XSS" ∧ f.severity = 6.5 ∧ f.status = "needs_human" ∧
      f.payoutEst = 5000 ∧
      f.evidence = ["XSS payload execution proof", "Impact demonstration"] ∧
      f.activityId = some (freshId s.counter)) ∧
    (∃ t2 f2,
      simulate_scan s scan_id (some 3) = some t2 ∧
      t2.findings = s.findings ++ [f2] ∧ f2.status = "needs_human") ∧
    (∃ t3,
      simulate_scan s scan_id (some 2) = some t3 ∧ t3.findings = s.findings) := by
  have hbase : ∀ x ∈ s.activities, (x.id == freshId s.counter) = false :=
    idsFreshFrom_acts s hfresh
  obtain ⟨pn, s1, a0, hsim, hacts1, ha0id, ha0st, ha0e, ha0d, ha0c, hruns1,
      hfnd1, hartf1, hev1, hcnt1⟩ :=
    simulate_prologue s scan_id sc hsc hbase
  have hstat : (({ sc with activityId := some (freshId s.counter) } : Scan).status
      == "stopped") = false := by
    simp only [beq_eq_false_iff_ne]
    exact hstop
  have hart : ∀ d, d < 9 →
      dictMem (freshId (s1.counter + d)) s1.artifacts = false := by
    rw [hartf1]
    exact idsFreshFrom_arts s hfresh s1.counter hcnt1
  refine ⟨?_, ?_, ?_⟩
  · obtain ⟨a, R, ts, hT1, hTid, hTst, hTc, hTe, hTd, hTruns, hTmap, hTall,
        hTfnd, hTscan⟩ :=
      simulate_tail_nostop s1 { sc with activityId := some (freshId s.counter) }
        (freshId s.counter) pn none s.activities a0
        (fun i _ => rfl) hstat hacts1 hbase ha0id hruns1
    rw [hfnd1] at hTfnd
    exact ⟨_, _, hsim none, hTfnd, rfl, rfl, rfl, rfl, rfl, rfl⟩
  · obtain ⟨a, R, ts, hT1, hTid, hTst, hTc, hTruns, hTmap, hTall, hTfnd,
        hTart, hTscan⟩ :=
      simulate_tail_stop3 s1 { sc with activityId := some (freshId s.counter) }
        (freshId s.counter) pn s.activities a0
        hstat hacts1 hbase ha0id hruns1 hart
    rw [hfnd1] at hTfnd
    exact ⟨_, _, hsim (some 3), hTfnd, rfl⟩
  · obtain ⟨a, R, hT1, hTid, hTst, hTc, hTruns, hTmap, hTall, hTfnd,
        hTart, hTscan⟩ :=
      simulate_tail_stop2 s1 { sc with activityId := some (freshId s.counter) }
        (freshId s.counter) pn s.activities a0
        hstat hacts1 hbase ha0id hruns1 hart
    rw [hfnd1] at hTfnd
    exact ⟨_, hsim (some 2), hTfnd⟩

theorem simulate_scan_one_finding_witness :
    (∃ t f,
      simulate_scan githubQueued (freshId 0) none = some t ∧
      t.findings = githubQueued.findings ++ [f] ∧
      f.type = "XSS" ∧ f.severity = 6.5 ∧ f.status = "needs_human" ∧
      f.payoutEst = 5000 ∧
      f.evidence = ["XSS payload execution proof", "Impact demonstration"] ∧
      f.activityId = some (freshId githubQueued.counter)) ∧
    (∃ t2 f2,
      simulate_scan githubQueued (freshId 0) (some 3) = some t2 ∧
      t2.findings = githubQueued.findings ++ [f2] ∧ f2.status = "needs_human") ∧
    (∃ t3,
      simulate_scan githubQueued (freshId 0) (some 2) = some t3 ∧
      t3.findings = githubQueued.findings) :=
  simulate_scan_one_finding githubQueued (freshId 0) githubScan
    (by decide) (by decide) (by decide)

/-- C7: for every stop schedule, every scan snapshot the simulation
publishes beyond the pre-existing events satisfies the derived-counter
relation `assetsFound = min(progress fdiv 10, 15)` and
`vulnerabilitiesFound = max 0 ((progress - 30) fdiv 20)` — at every stage
checkpoint the counters are these functions of progress, never independent
state. -/
theorem simulate_scan_counters_consistent (s : ServerState) (scan_id : String)
    (sc : Scan) (sb : Option Nat)
    (hsc : dictGet? scan_id s.scans = some sc)
    (hfresh : idsFreshFrom s 10)
    (hcc : scanCountersConsistent sc) :
    ∃ t, simulate_scan s scan_id sb = some t ∧
      ∀ x, Event.scan_update x ∈ t.events →
        Event.scan_update x ∈ s.events ∨ scanCountersConsistent x := by
  have hbase : ∀ x ∈ s.activities, (x.id == freshId s.counter) = false :=
    idsFreshFrom_acts s hfresh
  obtain ⟨pn, s1, a0, hsim, hacts1, ha0id, ha0st, ha0e, ha0d, ha0c, hruns1,
      hfnd1, hartf1, hev1, hcnt1⟩ :=
    simulate_prologue s scan_id sc hsc hbase
  refine ⟨_, hsim sb, ?_⟩
  have hinv := simulate_tail_scan_inv s1
    { sc with activityId := some (freshId s.counter) }
    (freshId s.counter) pn sb hcc
  rw [hev1] at hinv
  exact hinv

theorem simulate_scan_counters_consistent_witness :
    ∃ t, simulate_scan githubQueued (freshId 0) none = some t ∧
      ∀ x, Event.scan_update x ∈ t.events →
        Event.scan_update x ∈ githubQueued.events ∨ scanCountersConsistent x :=
  simulate_scan_counters_consistent githubQueued (freshId 0) githubScan none
    (by decide) (by decide) (by decide)

/-- C10: when the stop request lands only after the final stage's boundary
check (during the last sleep), the simulation still runs all five stages
and publishes the final snapshots, the scan ends `stopped` at progress 100,
but the activity is never moved to a terminal status: it stays
`in_progress` with `endTime`, `duration` and `conclusion` all null. -/
theorem simulate_scan_stop_after_final_check (s : ServerState) (scan_id : String)
    (sc : Scan)
    (hsc : dictGet? scan_id s.scans = some sc)
    (hid : sc.id = scan_id)
    (hstop : sc.status ≠ "stopped")
    (hfresh : idsFreshFrom s 10) :
    ∃ t a R sc2,
      simulate_scan s scan_id (some 5) = some t ∧
      t.activities = s.activities ++ [a] ∧
      a.status = "in_progress" ∧
      a.endTime = none ∧ a.duration = none ∧ a.conclusion = none ∧
      dictGet? a.id t.activity_runs = some R ∧
      R.map (fun r => r.jobName) =
        ["recon", "analysis", "exploitation", "reporting", "completion"] ∧
      (∀ r ∈ R, r.status = "completed" ∧ r.conclusion = some "success") ∧
      dictGet? scan_id t.scans = some sc2 ∧
      sc2.status = "stopped" ∧ sc2.progress = 100 ∧
      ∃ pre, t.events = pre ++
        [Event.scan_update sc2, Event.activity_updated a] := by
  have hbase : ∀ x ∈ s.activities, (x.id == freshId s.counter) = false :=
    idsFreshFrom_acts s hfresh
  obtain ⟨pn, s1, a0, hsim, hacts1, ha0id, ha0st, ha0e, ha0d, ha0c, hruns1,
      hfnd1, hartf1, hev1, hcnt1⟩ :=
    simulate_prologue s scan_id sc hsc hbase
  have hstat : (({ sc with activityId := some (freshId s.counter) } : Scan).status
      == "stopped") = false := by
    simp only [beq_eq_false_iff_ne]
    exact hstop
  obtain ⟨a, R, ts, hT1, hTid, hTst, hTe, hTd, hTc, hTruns, hTmap, hTall,
      hTfnd, hTscan, hTev⟩ :=
    simulate_tail_stop5 s1 { sc with activityId := some (freshId s.counter) }
      (freshId s.counter) pn s.activities a0
      hstat hacts1 hbase ha0id ha0st ha0e ha0d ha0c hruns1
  refine ⟨_, a, R,
    scanAtStage { sc with activityId := some (freshId s.counter) }
      "stopped" 100 10 3,
    hsim (some 5), hT1, hTst, hTe, hTd, hTc, ?_, hTmap, hTall, ?_, rfl, rfl, ?_⟩
  · rw [hTid]
    exact hTruns
  · rw [← hid]
    exact hTscan
  · refine ⟨s1.events ++
      [Event.scan_update (scanAtStage
        { sc with activityId := some (freshId s.counter) } "scanning" 20 2 0),
       Event.scan_update (scanAtStage
        { sc with activityId := some (freshId s.counter) } "analyzing" 40 4 0),
       Event.scan_update (scanAtStage
        { sc with activityId := some (freshId s.counter) } "exploiting" 70 7 2),
       Event.new_finding (xssFinding s1.findings.length
        ({ sc with activityId := some (freshId s.counter) } : Scan).programId
        (freshId s.counter) ts),
       Event.scan_update (scanAtStage
        { sc with activityId := some (freshId s.counter) } "reporting" 90 9 3),
       Event.scan_update (scanAtStage
        { sc with activityId := some (freshId s.counter) } "completed" 100 10 3)],
      ?_⟩
    rw [hTev]
    simp

theorem simulate_scan_stop_after_final_check_witness :
    ∃ t a R sc2,
      simulate_scan githubQueued (freshId 0) (some 5) = some t ∧
      t.activities = githubQueued.activities ++ [a] ∧
      a.status = "in_progress" ∧
      a.endTime = none ∧ a.duration = none ∧ a.conclusion = none ∧
      dictGet? a.id t.activity_runs = some R ∧
      R.map (fun r => r.jobName) =
        ["recon", "analysis", "exploitation", "reporting", "completion"] ∧
      (∀ r ∈ R, r.status = "completed" ∧ r.conclusion = some "success") ∧
      dictGet? (freshId 0) t.scans = some sc2 ∧
      sc2.status = "stopped" ∧ sc2.progress = 100 ∧
      ∃ pre, t.events = pre ++
        [Event.scan_update sc2, Event.activity_updated a] :=
  simulate_scan_stop_after_final_check githubQueued (freshId 0) githubScan
    (by decide) (by decide) (by decide) (by decide)

/-- C8: if the scan's status reads `stopped` at the boundary check before
stage `j` (0-based, `j ≤ 4`), the simulation executes only the first `j`
stages — the activity's run list holds exactly the first `j` job names, no
finding exists unless the exploitation stage (index 2) already ran, and no
later stage's artifacts exist — and the activity ends
`cancelled`/`cancelled`. -/
theorem simulate_scan_stop_skips_stages (s : ServerState) (scan_id : String)
    (sc : Scan) (j : Nat) (hj : j ≤ 4)
    (hsc : dictGet? scan_id s.scans = some sc)
    (hstop : sc.status ≠ "stopped")
    (hfresh : idsFreshFrom s 10) :
    ∃ t a R,
      simulate_scan s scan_id (some j) = some t ∧
      t.activities = s.activities ++ [a] ∧
      a.status = "cancelled" ∧ a.conclusion = some "cancelled" ∧
      dictGet? a.id t.activity_runs = some R ∧
      R.map (fun r => r.jobName) =
        List.take j ["recon", "analysis", "exploitation", "reporting",
          "completion"] ∧
      (j ≤ 2 → t.findings = s.findings) ∧
      t.artifacts.length = s.artifacts.length +
        (if j = 0 then 0 else if j ≤ 2 then 1 else if j = 3 then 3 else 4) := by
  have hbase : ∀ x ∈ s.activities, (x.id == freshId s.counter) = false :=
    idsFreshFrom_acts s hfresh
  obtain ⟨pn, s1, a0, hsim, hacts1, ha0id, ha0st, ha0e, ha0d, ha0c, hruns1,
      hfnd1, hartf1, hev1, hcnt1⟩ :=
    simulate_prologue s scan_id sc hsc hbase
  have hstat : (({ sc with activityId := some (freshId s.counter) } : Scan).status
      == "stopped") = false := by
    simp only [beq_eq_false_iff_ne]
    exact hstop
  have hart : ∀ d, d < 9 →
      dictMem (freshId (s1.counter + d)) s1.artifacts = false := by
    rw [hartf1]
    exact idsFreshFrom_arts s hfresh s1.counter hcnt1
  interval_cases j
  · obtain ⟨a, hT1, hTid, hTst, hTc, hTruns, hTfnd, hTart, hTscan⟩ :=
      simulate_tail_stop0 s1 { sc with activityId := some (freshId s.counter) }
        (freshId s.counter) pn s.activities a0 hacts1 hbase ha0id hruns1
    refine ⟨_, a, [], hsim (some 0), hT1, hTst, hTc, ?_, ?_, ?_, ?_⟩
    · rw [hTid]
      exact hTruns
    · simp
    · intro _
      rw [hTfnd, hfnd1]
    · rw [hTart, hartf1]
      simp
  · obtain ⟨a, R, hT1, hTid, hTst, hTc, hTruns, hTmap, hTall, hTfnd, hTart,
        hTscan⟩ :=
      simulate_tail_stop1 s1 { sc with activityId := some (freshId s.counter) }
        (freshId s.counter) pn s.activities a0 hstat hacts1 hbase ha0id hruns1 hart
    refine ⟨_, a, R, hsim (some 1), hT1, hTst, hTc, ?_, ?_, ?_, ?_⟩
    · rw [hTid]
      exact hTruns
    · rw [hTmap]
      rfl
    · intro _
      rw [hTfnd, hfnd1]
    · rw [hartf1] at hTart
      simpa using hTart
  · obtain ⟨a, R, hT1, hTid, hTst, hTc, hTruns, hTmap, hTall, hTfnd, hTart,
        hTscan⟩ :=
      simulate_tail_stop2 s1 { sc with activityId := some (freshId s.counter) }
        (freshId s.counter) pn s.activities a0 hstat hacts1 hbase ha0id hruns1 hart
    refine ⟨_, a, R, hsim (some 2), hT1, hTst, hTc, ?_, ?_, ?_, ?_⟩
    · rw [hTid]
      exact hTruns
    · rw [hTmap]
      rfl
    · intro _
      rw [hTfnd, hfnd1]
    · rw [hartf1] at hTart
      simpa using hTart
  · obtain ⟨a, R, ts, hT1, hTid, hTst, hTc, hTruns, hTmap, hTall, hTfnd, hTart,
        hTscan⟩ :=
      simulate_tail_stop3 s1 { sc with activityId := some (freshId s.counter) }
        (freshId s.counter) pn s.activities a0 hstat hacts1 hbase ha0id hruns1 hart
    refine ⟨_, a, R, hsim (some 3), hT1, hTst, hTc, ?_, ?_, ?_, ?_⟩
    · rw [hTid]
      exact hTruns
    · rw [hTmap]
      rfl
    · intro h
      exact absurd h (by omega)
    · rw [hartf1] at hTart
      simpa using hTart
  · obtain ⟨a, R, ts, hT1, hTid, hTst, hTc, hTruns, hTmap, hTall, hTfnd, hTart,
        hTscan⟩ :=
      simulate_tail_stop4 s1 { sc with activityId := some (freshId s.counter) }
        (freshId s.counter) pn s.activities a0 hstat hacts1 hbase ha0id hruns1 hart
    refine ⟨_, a, R, hsim (some 4), hT1, hTst, hTc, ?_, ?_, ?_, ?_⟩
    · rw [hTid]
      exact hTruns
    · rw [hTmap]
      rfl
    · intro h
      exact absurd h (by omega)
    · rw [hartf1] at hTart
      simpa using hTart

theorem simulate_scan_stop_skips_stages_witness :
    ∃ t a R,
      simulate_scan githubQueued (freshId 0) (some 3) = some t ∧
      t.activities = githubQueued.activities ++ [a] ∧
      a.status = "cancelled" ∧ a.conclusion = some "cancelled" ∧
      dictGet? a.id t.activity_runs = some R ∧
      R.map (fun r => r.jobName) =
        List.take 3 ["recon", "analysis", "exploitation", "reporting",
          "completion"] ∧
      ((3 : Nat) ≤ 2 → t.findings = githubQueued.findings) ∧
      t.artifacts.length = githubQueued.artifacts.length +
        (if (3 : Nat) = 0 then 0 else if (3 : Nat) ≤ 2 then 1
         else if (3 : Nat) = 3 then 3 else 4) :=
  simulate_scan_stop_skips_stages githubQueued (freshId 0) githubScan 3
    (by omega) (by decide) (by decide) (by decide)

theorem activity_terminal_fields_iff_witness :
    (applyStatusUpdate (initActivity "scan" "Test Scan" none "system"
        (freshId 0) 1) "completed" (some "success") 5).endTime ≠ none ∧
    (applyStatusUpdate (initActivity "scan" "Test Scan" none "system"
        (freshId 0) 1) "completed" (some "success") 5).duration ≠ none ∧
    (applyStatusUpdate (initActivity "scan" "Test Scan" none "system"
        (freshId 0) 1) "completed" (some "success") 5).conclusion ≠ none :=
  (activity_terminal_fields_iff _
    (ActivityReach.completed 5
      (ActivityReach.created "scan" "Test Scan" none "system"
        (freshId 0) 1))).1.mp (Or.inl (by decide))
